import Mathlib

/-!
Verification of the gelbeseiten scraper against its specification.

The Python sources under src/ are shallowly embedded below: pure functions
become Lean functions on `String`/`List`/`Rat`; Python float arithmetic on the
matcher confidences is modelled over `Rat` (all thresholds and scores in the
code are small decimal literals, far apart relative to double precision);
fallible code returns `Except PyExc`.
-/

/-- Exception kinds raised by the embedded code paths. -/
inductive PyExc
  | sessionLimitReached
  | attributeError
deriving Repr, DecidableEq

/-! ## String and list helpers (Python primitives used by the sources) -/

/-- Python truthiness of an `Optional[str]`: `None` and `""` are falsy. -/
def truthyS (o : Option String) : Bool :=
  match o with
  | none => false
  | some s => !s.isEmpty

/-- Python word character as used by `\w` and `\b` (ASCII fragment). -/
def isWordChar (c : Char) : Bool := c.isAlphanum || c = '_'

/-- Containment of `pat` as a contiguous substring of `l` (`pat in s`). -/
def hasSubstr (pat : List Char) : List Char → Bool
  | [] => decide (pat = [])
  | c :: tl => pat.isPrefixOf (c :: tl) || hasSubstr pat tl

/-- Suffix test on character lists (`re.search` of an anchored `...$`). -/
def endsWithL (pat l : List Char) : Bool := pat.isSuffixOf l

/-- Lowercasing as `str.lower` does on the German business names in scope:
ASCII letters plus the upper-case umlauts. -/
def germanLowerChar (c : Char) : Char :=
  if c = 'Ä' then 'ä' else if c = 'Ö' then 'ö' else if c = 'Ü' then 'ü'
  else c.toLower

def strLower (s : String) : String := String.mk (s.data.map germanLowerChar)

/-- Replaces the German umlauts by their transcriptions
(the `umlaut_map` loops in src/src/utils/matching.py). -/
def umlautExpandChar (c : Char) : List Char :=
  if c = 'ä' then ['a', 'e'] else if c = 'ö' then ['o', 'e']
  else if c = 'ü' then ['u', 'e'] else if c = 'ß' then ['s', 's'] else [c]

def umlautExpand (l : List Char) : List Char := l.flatMap umlautExpandChar

/-- Keeps word characters and whitespace (`re.sub(r"[^\w\s]", "", s)`). -/
def stripNonWord (l : List Char) : List Char :=
  l.filter (fun c => isWordChar c || c.isWhitespace)

theorem dropWhileLenLe (p : Char → Bool) (l : List Char) :
    (l.dropWhile p).length ≤ l.length := by
  induction l with
  | nil => simp [List.dropWhile]
  | cons c tl ih =>
    by_cases h : p c <;> simp [List.dropWhile, h] <;> omega

/-- Collapses whitespace runs to single blanks (`re.sub(r"\s+", " ", s)`). -/
def collapseWs : List Char → List Char
  | [] => []
  | c :: tl =>
    if c.isWhitespace then ' ' :: collapseWs (tl.dropWhile Char.isWhitespace)
    else c :: collapseWs tl
termination_by l => l.length
decreasing_by
  · simpa using Nat.lt_succ_of_le (dropWhileLenLe _ _)
  · simp

/-- Removes surrounding whitespace (`str.strip`). -/
def stripWs (l : List Char) : List Char :=
  ((l.dropWhile Char.isWhitespace).reverse.dropWhile Char.isWhitespace).reverse

/-! ## A small matcher for the word-boundary regexes of matching.py

The legal-form and street patterns of src/src/utils/matching.py all have the
shape `\b token-sequence \b` where a token is a literal character, an optional
dot (`\.?`) or a whitespace run (`\s*`, always followed by a non-blank
literal).  `reSubAll` mirrors `re.sub(pattern, repl, s)`: a left-to-right scan
of the original string, replacing non-overlapping matches. -/

inductive RElem
  | lit (c : Char)
  | optDot
  | skipWs
deriving Repr, DecidableEq

/-- Word boundary `\b` between two adjacent positions (`none` at the ends). -/
def boundaryB (a b : Option Char) : Bool :=
  (match a with | some c => isWordChar c | none => false) !=
  (match b with | some c => isWordChar c | none => false)

/-- Matches a token sequence at the head of `rest` (with backtracking for
`\.?`), checking the trailing `\b`; returns the last consumed character and
the remainder on success. -/
def reMatchCore : List RElem → Option Char → List Char → Option (Option Char × List Char)
  | [], prev, rest => if boundaryB prev rest.head? then some (prev, rest) else none
  | .lit c :: es, _, x :: xs => if x = c then reMatchCore es (some x) xs else none
  | .lit _ :: _, _, [] => none
  | .optDot :: es, prev, rest =>
    match rest with
    | '.' :: xs =>
      match reMatchCore es (some '.') xs with
      | some r => some r
      | none => reMatchCore es prev ('.' :: xs)
    | _ => reMatchCore es prev rest
  | .skipWs :: es, prev, rest =>
    let ws := rest.takeWhile Char.isWhitespace
    let rest2 := rest.dropWhile Char.isWhitespace
    match ws.getLast? with
    | some w => reMatchCore es (some w) rest2
    | none => reMatchCore es prev rest2

/-- Global replacement `re.sub(\b elems \b, repl, s)`; `prev` is the character
just before the current scan position in the original string.  The patterns in
scope always consume at least one character, which the guard makes explicit. -/
def reSubAll (elems : List RElem) (repl : List Char) (prev : Option Char) : List Char → List Char
  | [] => []
  | x :: xs =>
    if boundaryB prev (some x) then
      match h : reMatchCore elems prev (x :: xs) with
      | some r =>
        if hlen : r.2.length < (x :: xs).length then
          repl ++ reSubAll elems repl r.1 r.2
        else x :: reSubAll elems repl (some x) xs
      | none => x :: reSubAll elems repl (some x) xs
    else x :: reSubAll elems repl (some x) xs
termination_by l => l.length
decreasing_by all_goals first
  | exact hlen
  | simp

def litsOf (s : String) : List RElem := s.data.map .lit

/-! ## Levenshtein ratio

`Levenshtein.ratio(a, b)` equals `(len(a)+len(b) - d) / (len(a)+len(b))`
where `d` is the indel distance, i.e. `2 * lcs(a,b) / (len(a)+len(b))`. -/

def lcsLen : List Char → List Char → Nat
  | [], _ => 0
  | _ :: _, [] => 0
  | x :: xs, y :: ys =>
    if x = y then lcsLen xs ys + 1
    else max (lcsLen xs (y :: ys)) (lcsLen (x :: xs) ys)
termination_by a b => a.length + b.length

def levRatio (a b : String) : ℚ :=
  if a.length + b.length = 0 then 1
  else (2 * lcsLen a.data b.data : ℚ) / (a.length + b.length)

/-- Embeds similarity_score (src/src/utils/matching.py 159-175). -/
def similarityScore (a b : String) : ℚ :=
  if a = "" ∨ b = "" then 0 else levRatio a b

/-! ## Normalizers (src/src/utils/matching.py) -/

/-- Embeds normalize_phone (src/src/utils/matching.py 30-61). -/
def normalizePhone (phone : Option String) : String :=
  match phone with
  | none => ""
  | some p =>
    if p = "" then ""
    else
      let digits := p.data.filter Char.isDigit
      let digits :=
        if digits.take 2 = ['4', '9'] ∧ digits.length > 10 then digits.drop 2
        else if digits.take 4 = ['0', '0', '4', '9'] ∧ digits.length > 12 then digits.drop 4
        else digits
      let digits := if digits.take 1 = ['0'] then digits.drop 1 else digits
      String.mk digits

/-- The rechtsformen patterns of normalize_name, in source order. -/
def rechtsformenElems : List (List RElem) :=
  [ litsOf "gmbh", litsOf "ag", litsOf "kg", litsOf "ohg",
    litsOf "eg", [.lit 'e', .optDot, .lit 'k', .optDot],
    litsOf "inh" ++ [.optDot],
    [.lit '&', .skipWs, .lit 'c', .lit 'o', .optDot],
    litsOf "co" ++ [.optDot], litsOf "gbr",
    litsOf "mbh", litsOf "partg", litsOf "partner",
    litsOf "gesellschaft", litsOf "company" ]

/-- Embeds normalize_name (src/src/utils/matching.py 64-110). -/
def normalizeName (name : Option String) : String :=
  match name with
  | none => ""
  | some n =>
    if n = "" then ""
    else
      let s := umlautExpand (strLower n).data
      let s := rechtsformenElems.foldl (fun acc es => reSubAll es [] none acc) s
      String.mk (stripWs (collapseWs (stripNonWord s)))

/-- The street patterns of normalize_address, in source order. -/
def streetElems : List (List RElem × List Char) :=
  [ (litsOf "str" ++ [.optDot], "strasse".data),
    (litsOf "strasse", "strasse".data),
    (litsOf "pl" ++ [.optDot], "platz".data),
    (litsOf "weg", "weg".data),
    (litsOf "allee", "allee".data) ]

/-- Embeds normalize_address (src/src/utils/matching.py 113-156). -/
def normalizeAddress (address : Option String) : String :=
  match address with
  | none => ""
  | some a =>
    if a = "" then ""
    else
      let s := umlautExpand (strLower a).data
      let s := streetElems.foldl (fun acc p => reSubAll p.1 p.2 none acc) s
      String.mk (stripWs (collapseWs (stripNonWord s)))

/-! ## Lead data model (src/src/models/lead.py) -/

inductive WebsiteStatus
  | keine
  | alt
  | modern
  | unbekannt
  | nichtGeprueft
deriving Repr, DecidableEq

structure Address where
  strasse : Option String := none
  hausnummer : Option String := none
  plz : Option String := none
  stadt : String
  bundesland : Option String := none
deriving Repr, DecidableEq

/-- Embeds Address.format_full (src/src/models/lead.py 42-54). -/
def formatFull (a : Address) : String :=
  let parts : List String :=
    (if truthyS a.strasse then
      [a.strasse.getD "" ++ (if truthyS a.hausnummer then " " ++ a.hausnummer.getD "" else "")]
     else []) ++
    (if truthyS a.plz ∧ ¬a.stadt.isEmpty then [a.plz.getD "" ++ " " ++ a.stadt]
     else if ¬a.stadt.isEmpty then [a.stadt]
     else [])
  String.intercalate ", " parts

structure WebsiteAnalysis where
  status : WebsiteStatus := .nichtGeprueft
  signale : List String := []
  checkMethode : Option String := none
  checkDauerMs : Option Nat := none
  fehler : Option String := none
deriving Repr, DecidableEq

/-- Embeds the Lead pydantic model (src/src/models/lead.py 71-101).  The
`scrape_datum` timestamp is omitted (no claim mentions it).  Note the model
defines no `quellen`, `google_maps_place_id` or `google_maps_url` field. -/
structure Lead where
  firmenname : String
  branche : String
  branchenZusatz : Option String := none
  beschreibung : Option String := none
  adresse : Address
  telefon : Option String := none
  telefonZusatz : Option String := none
  fax : Option String := none
  email : Option String := none
  websiteUrl : Option String := none
  websiteAnalyse : WebsiteAnalysis := {}
  bewertung : Option ℚ := none
  bewertungAnzahl : Option Nat := none
  oeffnungszeiten : Option (List (String × String)) := none
  gelbeSeitenUrl : String
  gelbeSeitenId : Option String := none
deriving Repr, DecidableEq

/-- Embeds Lead.qualitaet_score (src/src/models/lead.py 139-178).  Each
summand mirrors one `if` of the source, including the Python truthiness of
the guard expressions. -/
def qualitaetScore (l : Lead) : Nat :=
  let score := 0
  let score := score + (if truthyS l.telefon then 20 else 0)
  let score := score + (if truthyS l.email then 25 else 0)
  let score := score + (if truthyS l.websiteUrl then 15 else 0)
  let score := score +
    (if truthyS l.adresse.strasse ∧ truthyS l.adresse.plz then 15
     else if truthyS l.adresse.strasse ∨ truthyS l.adresse.plz then 7
     else 0)
  let score := score +
    (if l.bewertung.isSome ∧ (l.bewertungAnzahl.getD 0 ≠ 0 ∧ l.bewertungAnzahl.isSome) then 10 else 0)
  let score := score + (if (l.oeffnungszeiten.getD []) ≠ [] ∧ l.oeffnungszeiten.isSome then 5 else 0)
  let score := score + (if truthyS l.beschreibung then 10 else 0)
  min score 100

/-! ## Matching (src/src/utils/matching.py) -/

structure MatchResult where
  isMatch : Bool
  confidence : ℚ
  matchReasons : List String
  mismatchReasons : List String
deriving Repr, DecidableEq

/-- Embeds is_phone_match (src/src/utils/matching.py 178-213). -/
def isPhoneMatch (phone1 phone2 : Option String) : Bool × ℚ :=
  if ¬truthyS phone1 ∨ ¬truthyS phone2 then (false, 0)
  else
    let norm1 := normalizePhone phone1
    let norm2 := normalizePhone phone2
    if norm1 = "" ∨ norm2 = "" then (false, 0)
    else if norm1 = norm2 then (true, 1)
    else if (hasSubstr norm1.data norm2.data || hasSubstr norm2.data norm1.data)
            ∧ 6 ≤ min norm1.length norm2.length then (true, 0.9)
    else
      let sim := similarityScore norm1 norm2
      if (0.9 : ℚ) ≤ sim then (true, sim) else (false, sim)

/-- Embeds is_name_match (src/src/utils/matching.py 216-252). -/
def isNameMatch (name1 name2 : String) (threshold : ℚ) : Bool × ℚ :=
  if name1 = "" ∨ name2 = "" then (false, 0)
  else
    let norm1 := normalizeName (some name1)
    let norm2 := normalizeName (some name2)
    if norm1 = "" ∨ norm2 = "" then (false, 0)
    else if norm1 = norm2 then (true, 1)
    else
      let sim := similarityScore norm1 norm2
      if threshold ≤ sim then (true, sim)
      else if 3 < norm1.length ∧ 3 < norm2.length
              ∧ (hasSubstr norm1.data norm2.data || hasSubstr norm2.data norm1.data) then
        (true, 0.85)
      else (false, sim)

/-- Embeds is_address_match (src/src/utils/matching.py 255-315).  Its only
call site passes the `format_full` strings for the addresses, so the address
arguments are `String` with Python's empty-string falsiness. -/
def isAddressMatch (addr1 : String) (plz1 : Option String) (addr2 : String)
    (plz2 : Option String) (threshold : ℚ) : Bool × ℚ :=
  let bothPlz := truthyS plz1 ∧ truthyS plz2
  let plzMatch := bothPlz ∧
    (plz1.getD "").data.filter Char.isDigit = (plz2.getD "").data.filter Char.isDigit
  if bothPlz ∧ ¬plzMatch then (false, 0)
  else if addr1 = "" ∨ addr2 = "" then
    (if plzMatch then (true, 0.7) else (false, 0))
  else
    let norm1 := normalizeAddress (some addr1)
    let norm2 := normalizeAddress (some addr2)
    if norm1 = "" ∨ norm2 = "" then
      (if plzMatch then (true, 0.7) else (false, 0))
    else
      let sim := similarityScore norm1 norm2
      if plzMatch ∧ (0.5 : ℚ) ≤ sim then (true, min 1 (sim + 0.3))
      else if threshold ≤ sim then (true, sim)
      else (false, sim)

/-- Python truthiness of the address block guard in is_duplicate (line 385):
the address comparison runs only when some address information is present. -/
def dupHaveAddr (la lb : Lead) : Prop :=
  formatFull la.adresse ≠ "" ∨ formatFull lb.adresse ≠ "" ∨
  truthyS la.adresse.plz = true ∨ truthyS lb.adresse.plz = true

instance (la lb : Lead) : Decidable (dupHaveAddr la lb) := by
  unfold dupHaveAddr; infer_instance

/-- The weighted-aggregate confidence of is_duplicate
(src/src/utils/matching.py 345-403): the phone, name and address scores and
weights, the `total_score / total_weight` quotient, and the name-plus-postal
floor of 0.9. -/
def dupWeightedConf (la lb : Lead) (phoneWeight nameWeight addressWeight : ℚ) : ℚ :=
  let phonesPresent := truthyS la.telefon = true ∧ truthyS lb.telefon = true
  let pm := isPhoneMatch la.telefon lb.telefon
  let pScore : ℚ := if phonesPresent ∧ pm.1 = true then pm.2 * phoneWeight else 0
  let pWeight : ℚ := if phonesPresent then phoneWeight else 0
  let nm := isNameMatch la.firmenname lb.firmenname 0.85
  let nScore : ℚ := if nm.1 = true then nm.2 * nameWeight else 0
  let am := isAddressMatch (formatFull la.adresse) la.adresse.plz
    (formatFull lb.adresse) lb.adresse.plz 0.8
  let aScore : ℚ := if dupHaveAddr la lb ∧ am.1 = true then am.2 * addressWeight else 0
  let totalWeight : ℚ := pWeight + nameWeight + (if dupHaveAddr la lb then addressWeight else 0)
  let conf0 : ℚ := if 0 < totalWeight then (pScore + nScore + aScore) / totalWeight else 0
  let plzExact := truthyS la.adresse.plz = true ∧ truthyS lb.adresse.plz = true ∧
    la.adresse.plz = lb.adresse.plz
  if nm.1 = true ∧ plzExact then max conf0 0.9 else conf0

/-- Embeds is_duplicate (src/src/utils/matching.py 318-414).  The reason
strings omit the interpolated float values (`f"phone ({conf:.2f})"` is
recorded as `"phone"`); the decision and confidence arithmetic is verbatim,
with the weighted-aggregate branch factored out as `dupWeightedConf`. -/
def isDuplicate (la lb : Lead) (phoneWeight nameWeight addressWeight threshold : ℚ) : MatchResult :=
  let phonesPresent := truthyS la.telefon = true ∧ truthyS lb.telefon = true
  let pm := isPhoneMatch la.telefon lb.telefon
  if phonesPresent ∧ pm.1 = true ∧ (0.95 : ℚ) ≤ pm.2 then
    ⟨true, pm.2, ["phone_exact"], []⟩
  else
    let nm := isNameMatch la.firmenname lb.firmenname 0.85
    let am := isAddressMatch (formatFull la.adresse) la.adresse.plz
      (formatFull lb.adresse) lb.adresse.plz 0.8
    let plzExact := truthyS la.adresse.plz = true ∧ truthyS lb.adresse.plz = true ∧
      la.adresse.plz = lb.adresse.plz
    let conf := dupWeightedConf la lb phoneWeight nameWeight addressWeight
    let reasons := (if phonesPresent ∧ pm.1 = true then ["phone"] else []) ++
      (if nm.1 then ["name"] else []) ++
      (if dupHaveAddr la lb ∧ am.1 = true then ["address"] else []) ++
      (if nm.1 = true ∧ plzExact then ["plz_exact"] else [])
    let mis := (if phonesPresent ∧ pm.1 = false then ["phone"] else []) ++
      (if nm.1 then [] else ["name"]) ++
      (if dupHaveAddr la lb ∧ am.1 = false then ["address"] else [])
    ⟨decide (threshold ≤ conf), conf, reasons, mis⟩

/-- Embeds merge_leads (src/src/utils/matching.py 417-475).  Lines 433-459
copy the primary via `model_dump` and fill the missing contact fields from
the secondary; line 462 then evaluates `primary.quellen + secondary.quellen`,
and the Lead model (src/src/models/lead.py 71-101) defines no field
`quellen`, so the attribute access raises AttributeError before any merged
lead is returned. -/
def mergeLeads (primary secondary : Lead) : Except PyExc Lead :=
  let merged := { primary with
    telefon := if ¬truthyS primary.telefon ∧ truthyS secondary.telefon
               then secondary.telefon else primary.telefon,
    email := if ¬truthyS primary.email ∧ truthyS secondary.email
             then secondary.email else primary.email,
    websiteUrl := if ¬truthyS primary.websiteUrl ∧ truthyS secondary.websiteUrl
                  then secondary.websiteUrl else primary.websiteUrl,
    oeffnungszeiten := if primary.oeffnungszeiten.getD [] = [] ∧ secondary.oeffnungszeiten.getD [] ≠ []
                       then secondary.oeffnungszeiten else primary.oeffnungszeiten }
  let _ := merged
  .error .attributeError

/-! ## Lead aggregator (src/src/pipeline/aggregator.py) -/

structure AggregatorConfig where
  phoneMatchWeight : ℚ := 1.0
  nameMatchWeight : ℚ := 0.8
  addressMatchWeight : ℚ := 0.6
  minSimilarityThreshold : ℚ := 0.85
  preferNewerData : Bool := true
deriving Repr, DecidableEq

structure AggregationStats where
  gelbeSeitenInput : Nat := 0
  googleMapsInput : Nat := 0
  totalInput : Nat := 0
  duplicatesFound : Nat := 0
  mergedLeads : Nat := 0
  uniqueLeads : Nat := 0
  outputCount : Nat := 0
deriving Repr, DecidableEq

/-- The inner scan of LeadAggregator.aggregate (src/src/pipeline/aggregator.py
94-108): index of the best match of `gm` in `result`, if any. -/
def bestMatchIndex (cfg : AggregatorConfig) (gm : Lead) (result : List Lead) : Option Nat :=
  let step := fun (acc : Option Nat × ℚ × Nat) (existing : Lead) =>
    let mr := isDuplicate existing gm cfg.phoneMatchWeight cfg.nameMatchWeight
      cfg.addressMatchWeight cfg.minSimilarityThreshold
    if mr.isMatch = true ∧ acc.2.1 < mr.confidence then
      (some acc.2.2, mr.confidence, acc.2.2 + 1)
    else (acc.1, acc.2.1, acc.2.2 + 1)
  (result.foldl step (none, 0, 0)).1

/-- One iteration of the `for gm_lead in google_maps_leads` loop
(src/src/pipeline/aggregator.py 89-127). -/
def aggregateStep (cfg : AggregatorConfig) (acc : List Lead × AggregationStats)
    (gm : Lead) : Except PyExc (List Lead × AggregationStats) :=
  match bestMatchIndex cfg gm acc.1 with
  | some i => do
    let existing := acc.1.getD i gm
    let merged ← mergeLeads existing gm
    .ok (acc.1.set i merged,
      { acc.2 with duplicatesFound := acc.2.duplicatesFound + 1,
                   mergedLeads := acc.2.mergedLeads + 1 })
  | none =>
    .ok (acc.1 ++ [gm], { acc.2 with uniqueLeads := acc.2.uniqueLeads + 1 })

/-- Embeds LeadAggregator.aggregate (src/src/pipeline/aggregator.py 56-137). -/
def aggregate (cfg : AggregatorConfig) (gelbeSeitenLeads googleMapsLeads : List Lead) :
    Except PyExc (List Lead × AggregationStats) := do
  let stats0 : AggregationStats :=
    { gelbeSeitenInput := gelbeSeitenLeads.length,
      googleMapsInput := googleMapsLeads.length,
      totalInput := gelbeSeitenLeads.length + googleMapsLeads.length }
  let r ← googleMapsLeads.foldlM (aggregateStep cfg) (gelbeSeitenLeads, stats0)
  .ok (r.1, { r.2 with outputCount := r.1.length })

/-! ## Rate limiter (src/src/client/rate_limiter.py, config/settings.py) -/

/-- Embeds RateLimitConfig (src/config/settings.py 33-61). -/
structure RateLimitConfig where
  gsMinDelay : ℚ := 2.0
  gsMaxDelay : ℚ := 4.0
  gsPauseEveryNRequests : Nat := 20
  gsPauseMinDuration : ℚ := 15.0
  gsPauseMaxDuration : ℚ := 30.0
  gsMaxRequestsPerMinute : Nat := 15
  gmMinDelay : ℚ := 3.0
  gmMaxDelay : ℚ := 6.0
  gmPauseEveryNRequests : Nat := 15
  gmPauseMinDuration : ℚ := 20.0
  gmPauseMaxDuration : ℚ := 40.0
  gmMaxRequestsPerMinute : Nat := 10
  extMinDelay : ℚ := 1.0
  extMaxDelay : ℚ := 2.0
  extTimeout : ℚ := 10.0
  maxRetries : Nat := 3
  backoffFactor : ℚ := 2.0
  retryStatusCodes : List Nat := [429, 500, 502, 503, 504]
deriving Repr, DecidableEq

/-- Embeds RateLimiter.should_retry (src/src/client/rate_limiter.py 197-210). -/
def shouldRetry (cfg : RateLimitConfig) (statusCode : Nat) (attempt : Nat) : Bool :=
  if cfg.maxRetries ≤ attempt then false
  else cfg.retryStatusCodes.contains statusCode

/-! ## URL heuristic (src/src/analyzer/url_heuristic.py) -/

inductive HeuristicResult
  | definitivAlt
  | wahrscheinlichAlt
  | unklar
  | wahrscheinlichModern
  | baukasten
deriving Repr, DecidableEq

structure URLAnalysisResult where
  result : HeuristicResult
  confidence : ℚ
  signals : List String
  domain : String
  isHttps : Bool
deriving Repr, DecidableEq

/-- Splits off a leading digit run. -/
def digitSpan (l : List Char) : Nat × List Char :=
  ((l.takeWhile Char.isDigit).length, l.dropWhile Char.isDigit)

/-- One group of the IP regex: 1-3 leading digits followed by a dot. -/
def ipGroupDot (l : List Char) : Option (List Char) :=
  let (n, r) := digitSpan l
  if 1 ≤ n ∧ n ≤ 3 then
    match r with
    | '.' :: r2 => some r2
    | _ => none
  else none

/-- Matches `^\d{1,3}\.\d{1,3}\.\d{1,3}\.\d{1,3}` at the start of `l`:
with greedy backtracking this succeeds exactly when the first three leading
digit runs have length 1-3 and are dot-separated, and a fourth digit run
follows. -/
def ipLeadMatch (l : List Char) : Bool :=
  match ipGroupDot l with
  | none => false
  | some r1 =>
    match ipGroupDot r1 with
    | none => false
    | some r2 =>
      match ipGroupDot r2 with
      | none => false
      | some r3 => 1 ≤ (digitSpan r3).1

/-- OLD_HOSTING_PATTERNS (src/src/analyzer/url_heuristic.py 38-63), matched
against `domain + path`; literal patterns are substring tests, `...$`
patterns are suffix tests, and the IP pattern is anchored at the start. -/
def oldHostingPatterns : List ((List Char → Bool) × String × HeuristicResult) :=
  [ (hasSubstr ".geocities.".data, "geocities_hosting", .definitivAlt),
    (hasSubstr ".tripod.".data, "tripod_hosting", .definitivAlt),
    (hasSubstr ".angelfire.".data, "angelfire_hosting", .definitivAlt),
    (hasSubstr ".fortunecity.".data, "fortunecity_hosting", .definitivAlt),
    (hasSubstr ".homestead.".data, "homestead_hosting", .definitivAlt),
    (hasSubstr ".bplaced.".data, "bplaced_hosting", .wahrscheinlichAlt),
    (hasSubstr ".beepworld.".data, "beepworld_hosting", .definitivAlt),
    (endsWithL ".de.vu".data, "de_vu_domain", .definitivAlt),
    (endsWithL ".de.to".data, "de_to_domain", .definitivAlt),
    (endsWithL ".co.de".data, "co_de_domain", .wahrscheinlichAlt),
    (hasSubstr ".funpic.".data, "funpic_hosting", .definitivAlt),
    (hasSubstr ".ohost.".data, "ohost_hosting", .wahrscheinlichAlt),
    (hasSubstr ".cwsurf.".data, "cwsurf_hosting", .definitivAlt),
    (hasSubstr ".t-online.de/home/".data, "t_online_home", .definitivAlt),
    (hasSubstr "home.t-online.de".data, "t_online_home", .definitivAlt),
    (hasSubstr ".arcor.de/".data, "arcor_home", .wahrscheinlichAlt),
    (ipLeadMatch, "ip_based_url", .wahrscheinlichAlt) ]

/-- BAUKASTEN_PATTERNS (src/src/analyzer/url_heuristic.py 66-83). -/
def baukastenPatterns : List ((List Char → Bool) × String) :=
  [ (hasSubstr ".jimdo.com".data, "jimdo_baukasten"),
    (hasSubstr ".jimdofree.com".data, "jimdo_free"),
    (hasSubstr ".jimdosite.com".data, "jimdo_site"),
    (hasSubstr ".wixsite.com".data, "wix_baukasten"),
    (hasSubstr ".wix.com".data, "wix_baukasten"),
    (hasSubstr ".weebly.com".data, "weebly_baukasten"),
    (hasSubstr ".squarespace.com".data, "squarespace_baukasten"),
    (hasSubstr ".webnode.".data, "webnode_baukasten"),
    (hasSubstr ".site123.".data, "site123_baukasten"),
    (hasSubstr ".strikingly.com".data, "strikingly_baukasten"),
    (hasSubstr ".wordpress.com".data, "wordpress_com_free"),
    (hasSubstr ".blogspot.".data, "blogspot"),
    (hasSubstr ".blogger.com".data, "blogger"),
    (hasSubstr ".tumblr.com".data, "tumblr"),
    (hasSubstr ".one.com".data, "one_com"),
    (hasSubstr ".my-free-website.".data, "my_free_website") ]

/-- MODERN_PATTERNS (src/src/analyzer/url_heuristic.py 86-95). -/
def modernPatterns : List ((List Char → Bool) × String) :=
  [ (hasSubstr ".vercel.app".data, "vercel_hosting"),
    (hasSubstr ".netlify.app".data, "netlify_hosting"),
    (hasSubstr ".github.io".data, "github_pages"),
    (hasSubstr ".pages.dev".data, "cloudflare_pages"),
    (hasSubstr ".herokuapp.com".data, "heroku_hosting"),
    (hasSubstr ".azurewebsites.net".data, "azure_hosting"),
    (hasSubstr ".web.app".data, "firebase_hosting"),
    (hasSubstr ".firebaseapp.com".data, "firebase_hosting") ]

/-- Contiguous occurrence of `pat` followed by at least one word character
(the `...\w+` path regexes). -/
def hasSubThenWord (pat : List Char) : List Char → Bool
  | [] => false
  | c :: tl =>
    (pat.isPrefixOf (c :: tl) &&
      (match ((c :: tl).drop pat.length).head? with
       | some d => isWordChar d
       | none => false)) || hasSubThenWord pat tl

/-- SUSPICIOUS_PATH_PATTERNS (src/src/analyzer/url_heuristic.py 98-108). -/
def suspiciousPathPatterns : List ((List Char → Bool) × String) :=
  [ (hasSubThenWord "/~".data, "tilde_user_path"),
    (hasSubThenWord "/home/".data, "home_user_path"),
    (fun l => hasSubThenWord "/user/".data l || hasSubThenWord "/users/".data l, "users_path"),
    (fun l => hasSubThenWord "/member/".data l || hasSubThenWord "/members/".data l, "members_path"),
    (endsWithL ".htm".data, "htm_extension"),
    (hasSubstr "/cgi-bin/".data, "cgi_bin_path"),
    (endsWithL ".php3".data, "php3_extension"),
    (endsWithL ".asp".data, "asp_classic"),
    (fun l => endsWithL "/default.asp".data l || endsWithL "/default.aspx".data l, "default_aspx") ]

/-- Embeds URLHeuristic._check_old_patterns (url_heuristic.py 239-258):
collects signals in pattern order; the worst result is the first match unless
a later match is DEFINITIV_ALT. -/
def oldPatternStep (fullUrl : List Char) (acc : List String × Option HeuristicResult)
    (p : (List Char → Bool) × String × HeuristicResult) : List String × Option HeuristicResult :=
  if p.1 fullUrl then
    (acc.1 ++ [p.2.1],
     match acc.2 with
     | none => some p.2.2
     | some w => if p.2.2 = .definitivAlt then some .definitivAlt else some w)
  else acc

def checkOldPatterns (fullUrl : List Char) : Option (HeuristicResult × List String) :=
  let folded := oldHostingPatterns.foldl (oldPatternStep fullUrl) ([], none)
  match folded.2 with
  | some w => some (w, folded.1)
  | none => none

/-- Embeds URLHeuristic._check_baukasten (url_heuristic.py 260-268). -/
def checkBaukasten (domain : List Char) : List String :=
  (baukastenPatterns.filter (fun p => p.1 domain)).map (fun p => p.2)

/-- Embeds URLHeuristic._check_modern_patterns (url_heuristic.py 270-278). -/
def checkModernPatterns (domain : List Char) : List String :=
  (modernPatterns.filter (fun p => p.1 domain)).map (fun p => "modern_" ++ p.2)

/-- Embeds URLHeuristic._check_path_patterns (url_heuristic.py 280-288). -/
def checkPathPatterns (path : List Char) : List String :=
  (suspiciousPathPatterns.filter (fun p => p.1 path)).map (fun p => p.2)

/-- `str.startswith` on the character lists. -/
def strStartsWith (pre s : String) : Bool := pre.data.isPrefixOf s.data

/-- The URL normalization at the head of URLHeuristic.analyze
(url_heuristic.py 139-142): strip, lower, prepend https where no scheme. -/
def normalizeScanUrl (url0 : String) : String :=
  let url := strLower (String.mk (stripWs url0.data))
  if strStartsWith "http://" url || strStartsWith "https://" url then url
  else "https://" ++ url

/-- The `urllib.parse.urlparse` fields consumed by analyze: netloc runs from
the scheme marker to the first of `/`, `?`, `#`; the path then runs to the
first of `?`, `#`.  Returns (domain, path, is_https). -/
def parseUrlParts (url : String) : String × String × Bool :=
  let isHttps := strStartsWith "https://" url
  let rest := if isHttps then String.mk (url.data.drop 8)
    else if strStartsWith "http://" url then String.mk (url.data.drop 7) else url
  let netloc := rest.data.takeWhile (fun c => c ≠ '/' ∧ c ≠ '?' ∧ c ≠ '#')
  let after := rest.data.drop netloc.length
  let path := after.takeWhile (fun c => c ≠ '?' ∧ c ≠ '#')
  (String.mk netloc, String.mk path, isHttps)

/-- Embeds URLHeuristic.analyze (src/src/analyzer/url_heuristic.py 126-237).
The urlparse try/except branch is unreachable for the URLs this parser model
accepts, so no error case appears. -/
def urlAnalyze (url0 : String) : URLAnalysisResult :=
  let parts := parseUrlParts (normalizeScanUrl url0)
  let domain := parts.1
  let path := parts.2.1
  let isHttps := parts.2.2
  let signals0 : List String := if isHttps then [] else ["kein_https"]
  match checkOldPatterns (domain.data ++ path.data) with
  | some (rt, ps) =>
    ⟨rt, if rt = .definitivAlt then 0.9 else 0.7, signals0 ++ ps, domain, isHttps⟩
  | none =>
    let bk := checkBaukasten domain.data
    if bk ≠ [] then ⟨.baukasten, 0.95, signals0 ++ bk, domain, isHttps⟩
    else
      let md := checkModernPatterns domain.data
      if md ≠ [] then ⟨.wahrscheinlichModern, 0.8, signals0 ++ md, domain, isHttps⟩
      else
        let signals := signals0 ++ checkPathPatterns path.data
        if ¬isHttps ∧ 1 < signals.length then ⟨.wahrscheinlichAlt, 0.6, signals, domain, isHttps⟩
        else if signals ≠ [] then ⟨.unklar, 0.3, signals, domain, isHttps⟩
        else ⟨.unklar, 0, signals, domain, isHttps⟩

/-! ## Website scanner (src/src/scraper/website_scanner.py)

The HEAD and GET probes are I/O; the scanner is embedded as a function of the
probe RESULTS, while the `check_methods` list of the returned record tracks
exactly which probe stages were executed, as in the source. -/

inductive WebsiteCheckDepth
  | fast
  | normal
  | thorough
deriving Repr, DecidableEq

inductive HeaderResult
  | definitivAlt
  | wahrscheinlichAlt
  | unklar
  | wahrscheinlichModern
  | fehler
deriving Repr, DecidableEq

structure HeaderAnalysisResult where
  result : HeaderResult
  confidence : ℚ
  signals : List String
deriving Repr, DecidableEq

inductive HTMLResult
  | definitivAlt
  | wahrscheinlichAlt
  | unklar
  | wahrscheinlichModern
  | fehler
deriving Repr, DecidableEq

structure HTMLAnalysisResult where
  result : HTMLResult
  confidence : ℚ
  signals : List String
deriving Repr, DecidableEq

inductive ScanResult
  | alt
  | modern
  | baukasten
  | unklar
  | fehler
deriving Repr, DecidableEq

structure WebsiteScanResult where
  result : ScanResult
  websiteStatus : WebsiteStatus
  confidence : ℚ
  signals : List String
  checkMethods : List String
deriving Repr, DecidableEq

/-- Embeds WebsiteScanner._make_final_decision (website_scanner.py 333-450). -/
def makeFinalDecision (u : URLAnalysisResult) (hdr : HeaderAnalysisResult)
    (html : HTMLAnalysisResult) (allSignals checkMethods : List String) : WebsiteScanResult :=
  let oldScore : ℚ :=
    (match u.result with
     | .definitivAlt => 3 | .wahrscheinlichAlt => 2 | .baukasten => 1.5 | _ => 0) +
    (match hdr.result with
     | .definitivAlt => 3 | .wahrscheinlichAlt => 2 | _ => 0) +
    (match html.result with
     | .definitivAlt => 4 | .wahrscheinlichAlt => 2.5 | _ => 0)
  let modernScore : ℚ :=
    (if u.result = .wahrscheinlichModern then 2 else 0) +
    (if hdr.result = .wahrscheinlichModern then 2 else 0) +
    (if html.result = .wahrscheinlichModern then 3 else 0)
  if 4 ≤ oldScore then
    ⟨.alt, .alt, min 0.95 (0.5 + oldScore * 0.1), allSignals, checkMethods⟩
  else if 4 ≤ modernScore then
    ⟨.modern, .modern, min 0.95 (0.5 + modernScore * 0.1), allSignals, checkMethods⟩
  else if modernScore < oldScore then
    ⟨.alt, .alt, 0.6, allSignals, checkMethods⟩
  else if oldScore < modernScore then
    ⟨.modern, .modern, 0.6, allSignals, checkMethods⟩
  else
    ⟨.unklar, .unbekannt, 0.3, allSignals, checkMethods⟩

/-- Stage 3 of the scan: signals and method list extended by the HTML probe,
then the final decision (website_scanner.py 315-331). -/
def scanStage3 (u : URLAnalysisResult) (hdr : HeaderAnalysisResult)
    (html : HTMLAnalysisResult) (sigs2 methods2 : List String) : WebsiteScanResult :=
  makeFinalDecision u hdr html
    (sigs2 ++ html.signals.map (fun s => "html:" ++ s))
    (methods2 ++ ["html_scan"])

/-- Embeds WebsiteScanner.scan (src/src/scraper/website_scanner.py 89-331),
with the HEAD and GET probe results supplied as `hdr` and `html`; the
returned `checkMethods` lists exactly the probes the control flow reaches. -/
def websiteScan (url : String) (depth : WebsiteCheckDepth)
    (hdr : HeaderAnalysisResult) (html : HTMLAnalysisResult) : WebsiteScanResult :=
  let u := urlAnalyze url
  let sigs1 := u.signals.map (fun s => "url:" ++ s)
  let methods1 := ["url_heuristic"]
  if u.result = .definitivAlt then
    ⟨.alt, .alt, u.confidence, sigs1, methods1⟩
  else if u.result = .baukasten then
    ⟨.baukasten, .alt, u.confidence, sigs1, methods1⟩
  else if u.result = .wahrscheinlichModern ∧ depth = .fast then
    ⟨.modern, .modern, u.confidence, sigs1, methods1⟩
  else if depth = .fast then
    (if u.result = .wahrscheinlichAlt then
      ⟨.alt, .alt, u.confidence, sigs1, methods1⟩
     else ⟨.unklar, .unbekannt, 0.3, sigs1, methods1⟩)
  else
    let sigs2 := sigs1 ++ hdr.signals.map (fun s => "header:" ++ s)
    let methods2 := methods1 ++ ["header_check"]
    if hdr.result = .fehler then
      (if u.result = .wahrscheinlichAlt then ⟨.alt, .alt, 0.5, sigs2, methods2⟩
       else ⟨.unklar, .unbekannt, 0.2, sigs2, methods2⟩)
    else if hdr.result = .definitivAlt then
      ⟨.alt, .alt, hdr.confidence, sigs2, methods2⟩
    else
      let combinedOld := (u.result = .wahrscheinlichAlt ∨ u.result = .definitivAlt) ∨
        (hdr.result = .wahrscheinlichAlt ∨ hdr.result = .definitivAlt)
      let combinedModern := u.result = .wahrscheinlichModern ∨ hdr.result = .wahrscheinlichModern
      if depth = .normal then
        (if combinedOld ∧ ¬combinedModern then
          ⟨.alt, .alt, max u.confidence hdr.confidence, sigs2, methods2⟩
         else if combinedModern ∧ ¬combinedOld then
          ⟨.modern, .modern, max u.confidence hdr.confidence, sigs2, methods2⟩
         else if hdr.result = .unklar ∧ u.result = .unklar then
          scanStage3 u hdr html sigs2 methods2
         else ⟨.unklar, .unbekannt, 0.4, sigs2, methods2⟩)
      else scanStage3 u hdr html sigs2 methods2

/-! ## Lead filter and ranking (src/src/pipeline/filters.py) -/

/-- Embeds FilterConfig (src/config/settings.py 83-97). -/
structure FilterConfig where
  includeNoWebsite : Bool := true
  includeOldWebsite : Bool := true
  includeModernWebsite : Bool := false
  includeUnknownWebsite : Bool := true
  minQualityScore : Nat := 0
  requirePhone : Bool := false
  requireEmail : Bool := false
  requireAddress : Bool := false
deriving Repr, DecidableEq

/-- Embeds LeadFilter._check_website_status (filters.py 91-119); the lead's
website_status shortcut reads website_analyse.status (lead.py 186-190). -/
def checkWebsiteStatus (cfg : FilterConfig) (l : Lead) : Bool :=
  match l.websiteAnalyse.status with
  | .keine => cfg.includeNoWebsite
  | .alt => cfg.includeOldWebsite
  | .modern => cfg.includeModernWebsite
  | .unbekannt => cfg.includeUnknownWebsite
  | .nichtGeprueft => true

/-- Embeds LeadFilter.should_include (filters.py 51-89) for the default
pipeline configuration (no custom filters are registered by the pipeline). -/
def shouldInclude (cfg : FilterConfig) (l : Lead) : Bool :=
  checkWebsiteStatus cfg l &&
  decide (cfg.minQualityScore ≤ qualitaetScore l) &&
  (!cfg.requirePhone || truthyS l.telefon) &&
  (!cfg.requireEmail || truthyS l.email) &&
  (!cfg.requireAddress || (truthyS l.adresse.strasse && truthyS l.adresse.plz))

/-- Embeds LeadFilter.filter_leads (filters.py 158-179). -/
def filterLeads (cfg : FilterConfig) (leads : List Lead) : List Lead :=
  leads.filter (shouldInclude cfg)

/-- Stable descending insertion by quality score: an element is placed after
every earlier element whose key is at least as large, which is exactly the
ordering `sorted(leads, key=quality, reverse=True)` produces (Python's sort is
stable, and `reverse=True` keeps equal-key elements in input order). -/
def insertByScoreDesc (x : Lead) : List Lead → List Lead
  | [] => [x]
  | y :: ys =>
    if qualitaetScore x < qualitaetScore y then y :: insertByScoreDesc x ys
    else x :: y :: ys

/-- Embeds LeadFilter.sort_leads with by="quality", reverse=True
(filters.py 181-209), the only call the pipeline makes (orchestrator.py 445). -/
def sortLeadsQuality (leads : List Lead) : List Lead :=
  leads.foldr insertByScoreDesc []

/-- Embeds Pipeline._stage4_filter_leads (orchestrator.py 437-457). -/
def stage4FilterLeads (cfg : FilterConfig) (leads : List Lead) : List Lead :=
  sortLeadsQuality (filterLeads cfg leads)

/-! ## Stealth session limit and the orchestrator's handling of it

src/src/pipeline/orchestrator.py line 15 imports `StealthRateLimiter` and
`SessionLimitReached` from src.client.rate_limiter and tests/test_google_maps.py
exercises them, but src/src/client/rate_limiter.py defines neither.  The two
are therefore modelled from the spec; the scraper loop and the orchestrator's
except-handler below are embedded from the sources. -/

/-- Embeds StealthConfig (src/config/settings.py 144-171). -/
structure StealthConfig where
  enabled : Bool := false
  minDelay : ℚ := 30.0
  maxDelay : ℚ := 90.0
  requestsBeforeBreak : Nat := 12
  breakMinDuration : ℚ := 180.0
  breakMaxDuration : ℚ := 480.0
  maxRequestsPerHour : Nat := 50
  maxSessionDurationMinutes : Nat := 180
deriving Repr, DecidableEq

/-- Modelled from the spec: the missing StealthRateLimiter acquire operation.
Spec 4.B: stealth mode has "a total session wall-clock cap (default 180
minutes); when session cap is reached, `acquire` terminates cooperatively by
raising a SessionLimitReached condition".  `sessionStart` and `now` are
wall-clock seconds. -/
def stealthAcquire (cfg : StealthConfig) (sessionStart now : ℚ) : Except PyExc Unit :=
  if (cfg.maxSessionDurationMinutes : ℚ) * 60 ≤ now - sessionStart then
    .error .sessionLimitReached
  else .ok ()

/-- One detail-page visit of the stage-1a loop: the wall-clock time at which
the rate limiter is consulted, and the lead the detail parser yields. -/
structure DetailVisit where
  now : ℚ
  lead : Lead
deriving Repr, DecidableEq

/-- Outcome of GelbeSeitenScraper.scrape_leads: the returned leads or the
re-raised condition, plus the scraper's `_partial_leads` attribute. -/
structure ScrapeOutcome where
  result : Except PyExc (List Lead)
  partialLeads : List Lead
deriving Repr

/-- Embeds the detail loop of GelbeSeitenScraper.scrape_leads
(src/src/scraper/gelbe_seiten.py 184-226): each detail fetch first passes
through the rate limiter; on SessionLimitReached the collected leads are
stored into `_partial_leads` and the condition is re-raised "damit die
Pipeline sie sieht". -/
def scrapeLeadsDetails (cfg : StealthConfig) (sessionStart : ℚ) (maxLeads : Nat) :
    List DetailVisit → List Lead → ScrapeOutcome
  | [], acc => ⟨.ok acc, []⟩
  | v :: rest, acc =>
    if maxLeads ≤ acc.length then ⟨.ok acc, []⟩
    else
      match stealthAcquire cfg sessionStart v.now with
      | .error e => ⟨.error e, acc⟩
      | .ok _ => scrapeLeadsDetails cfg sessionStart maxLeads rest (acc ++ [v.lead])

structure PipelineRunResult where
  leads : List Lead
  fehler : List String
deriving Repr, DecidableEq

structure PipelineRunOutput where
  result : PipelineRunResult
  scraperPartialLeads : List Lead
deriving Repr, DecidableEq

/-- Embeds the Gelbe-Seiten-only slice of Pipeline.run
(src/src/pipeline/orchestrator.py 185-292): stage 1a, the empty-result exit,
stages 3-4 (supplied as functions), and the SessionLimitReached handler of
lines 273-283.  That handler sets `result.leads = leads if 'leads' in dir()
else []`; the local `leads` is first assigned only after stages 1a/1b, so
when the condition escapes from stage 1a the result carries the empty list,
and the scraper's `_partial_leads` are never read. -/
def pipelineRunGS (cfg : StealthConfig) (sessionStart : ℚ) (maxLeads : Nat)
    (visits : List DetailVisit) (stage3 stage4 : List Lead → List Lead) : PipelineRunOutput :=
  let so := scrapeLeadsDetails cfg sessionStart maxLeads visits []
  match so.result with
  | .ok gsLeads =>
    let leads := gsLeads ++ []
    if leads = [] then ⟨⟨[], ["Keine Leads gefunden"]⟩, so.partialLeads⟩
    else ⟨⟨stage4 (stage3 leads), []⟩, so.partialLeads⟩
  | .error .sessionLimitReached => ⟨⟨[], []⟩, so.partialLeads⟩
  | .error _ => ⟨⟨[], ["Pipeline-Fehler"]⟩, so.partialLeads⟩

/-! ## Multi-category run with checkpointing (src/main.py) -/

/-- The two city-keyed checkpoint files of run_multi_branche_scrape
(src/main.py 291-294): `.checkpoint_leads_<city>.json` holding
`{"leads": [...]}` and `.checkpoint_branchen_<city>.json` holding the
processed-category list.  `none` means the file does not exist; lead
dict round-tripping is modelled as the identity. -/
structure CheckpointFS where
  leadsCkpt : Option (List Lead) := none
  branchenCkpt : Option (List String) := none
deriving Repr, DecidableEq

structure MultiState where
  allLeads : List Lead
  processed : List String
deriving Repr, DecidableEq

/-- Embeds the resume block of run_multi_branche_scrape (src/main.py
296-320): the processed set is loaded whenever its file exists; the leads are
restored only when the leads file exists AND the processed set is non-empty. -/
def loadCheckpoint (fs : CheckpointFS) : MultiState :=
  let processed := fs.branchenCkpt.getD []
  let allLeads :=
    match fs.leadsCkpt with
    | some ls => if processed ≠ [] then ls else []
    | none => []
  ⟨allLeads, processed⟩

/-- Embeds _save_checkpoint (src/main.py 415-435). -/
def saveCheckpoint (st : MultiState) : CheckpointFS :=
  ⟨some st.allLeads, some st.processed⟩

/-- The methods the LeadAggregator class defines
(src/src/pipeline/aggregator.py 32-259). -/
def leadAggregatorMethods : List String :=
  ["__init__", "aggregate", "deduplicate", "find_duplicates",
   "group_by_location", "stats", "get_stats_dict"]

/-- The inner duplicate probe of the cross-category check (src/main.py
370-374): for a non-empty list of existing leads it evaluates
`aggregator._is_duplicate(lead, existing)`, an attribute the LeadAggregator
class does not define, so the lookup raises AttributeError. -/
def checkDupAgainst (lead : Lead) (existing : List Lead) : Except PyExc Bool :=
  match existing with
  | [] => .ok false
  | _ :: _ =>
    if leadAggregatorMethods.contains "_is_duplicate" then
      .ok false
    else
      .error .attributeError
  -- the then-branch is unreachable: were the method defined it would be
  -- called here, but no such attribute exists on the class

/-- Embeds the new-leads collection loop (src/main.py 368-376). -/
def collectNewLeads (brancheLeads allLeads : List Lead) : Except PyExc (List Lead) :=
  match brancheLeads with
  | [] => .ok []
  | l :: ls => do
    let isDup ← checkDupAgainst l allLeads
    let rest ← collectNewLeads ls allLeads
    .ok (if isDup then rest else l :: rest)

structure BranchenStepOutput where
  state : MultiState
  fs : CheckpointFS
  swallowed : Option PyExc
deriving Repr, DecidableEq

/-- Embeds one iteration of the category loop of run_multi_branche_scrape
(src/main.py 324-396): skip already-processed categories; run the pipeline
(`scrape` names its lead list); dedup new leads against the accumulator
inside try/except, where a raised exception is re-raised under --debug and
otherwise printed and swallowed; mark the category processed; write the
checkpoint after every 10th enumerate index. -/
def processBranche (debug : Bool) (scrape : String → List Lead) (idx : Nat)
    (st : MultiState) (fs : CheckpointFS) (branche : String) :
    Except PyExc BranchenStepOutput :=
  if st.processed.contains branche then .ok ⟨st, fs, none⟩
  else
    let brancheLeads := scrape branche
    let attempt : Except PyExc (List Lead) :=
      if brancheLeads ≠ [] then
        (collectNewLeads brancheLeads st.allLeads).map (fun nl => st.allLeads ++ nl)
      else .ok st.allLeads
    match attempt with
    | .error e =>
      if debug then .error e
      else
        let st' : MultiState := ⟨st.allLeads, st.processed ++ [branche]⟩
        let fs' := if idx % 10 = 0 then saveCheckpoint st' else fs
        .ok ⟨st', fs', some e⟩
    | .ok newAll =>
      let st' : MultiState := ⟨newAll, st.processed ++ [branche]⟩
      let fs' := if idx % 10 = 0 then saveCheckpoint st' else fs
      .ok ⟨st', fs', none⟩

/-- The category loop with the 1-based enumerate index. -/
def runMultiAux (debug : Bool) (scrape : String → List Lead) :
    Nat → MultiState → CheckpointFS → List String → Except PyExc (MultiState × CheckpointFS)
  | _, st, fs, [] => .ok (st, fs)
  | idx, st, fs, b :: bs => do
    let out ← processBranche debug scrape idx st fs b
    runMultiAux debug scrape (idx + 1) out.state out.fs bs

/-- Embeds run_multi_branche_scrape (src/main.py 274-412): load the
checkpoint, iterate the categories, and on completion delete both checkpoint
files (lines 398-402). -/
def runMultiBranche (debug : Bool) (scrape : String → List Lead)
    (branchen : List String) (fs0 : CheckpointFS) :
    Except PyExc (List Lead × MultiState × CheckpointFS) := do
  let st0 := loadCheckpoint fs0
  let r ← runMultiAux debug scrape 1 st0 fs0 branchen
  .ok (r.1.allLeads, r.1, ⟨none, none⟩)

/-! ## Sample data used by the concrete theorems -/

def sampleAddrBerlin : Address := { stadt := "Berlin", plz := some "10115" }

def sampleAddrHamburg : Address := { stadt := "Hamburg", plz := some "20095" }

def sampleLeadA : Lead :=
  { firmenname := "Friseur A"
    branche := "Friseur"
    adresse := sampleAddrBerlin
    telefon := some "030 111111"
    gelbeSeitenUrl := "https://gs.de/1" }

def sampleLeadB : Lead :=
  { firmenname := "Friseur B"
    branche := "Friseur"
    adresse := sampleAddrBerlin
    telefon := some "030 222222"
    gelbeSeitenUrl := "https://gs.de/2" }

def c3LeadA : Lead :=
  { firmenname := ""
    branche := "Friseur"
    adresse := sampleAddrBerlin
    telefon := some "11111111111111111112"
    gelbeSeitenUrl := "https://gs.de/3" }

def c3LeadB : Lead :=
  { firmenname := ""
    branche := "Friseur"
    adresse := sampleAddrHamburg
    telefon := some "11111111111111111113"
    gelbeSeitenUrl := "https://gs.de/4" }

/-! ## Helper lemmas -/

theorem lcsLen_le_left : (a b : List Char) → lcsLen a b ≤ a.length
  | [], _ => by simp [lcsLen]
  | _ :: _, [] => by simp [lcsLen]
  | x :: xs, y :: ys => by
    have ih0 := lcsLen_le_left xs ys
    have ih1 := lcsLen_le_left xs (y :: ys)
    have ih2 := lcsLen_le_left (x :: xs) ys
    by_cases h : x = y <;>
      simp only [lcsLen, h, if_true, if_false, List.length_cons] at ih0 ih1 ih2 ⊢ <;> omega
termination_by a b => a.length + b.length

theorem lcsLen_le_right : (a b : List Char) → lcsLen a b ≤ b.length
  | [], _ => by simp [lcsLen]
  | _ :: _, [] => by simp [lcsLen]
  | x :: xs, y :: ys => by
    have ih0 := lcsLen_le_right xs ys
    have ih1 := lcsLen_le_right xs (y :: ys)
    have ih2 := lcsLen_le_right (x :: xs) ys
    by_cases h : x = y <;>
      simp only [lcsLen, h, if_true, if_false, List.length_cons] at ih0 ih1 ih2 ⊢ <;> omega
termination_by a b => a.length + b.length

theorem levRatio_le_one (a b : String) : levRatio a b ≤ 1 := by
  unfold levRatio
  by_cases h : a.length + b.length = 0
  · simp [h]
  · have hlen : 2 * lcsLen a.data b.data ≤ a.length + b.length := by
      have h1 := lcsLen_le_left a.data b.data
      have h2 := lcsLen_le_right a.data b.data
      simp only [String.length] at *
      omega
    simp only [h, if_false]
    rw [div_le_one (by exact_mod_cast Nat.pos_of_ne_zero h)]
    exact_mod_cast hlen

theorem similarityScore_le_one (a b : String) : similarityScore a b ≤ 1 := by
  unfold similarityScore
  split
  · norm_num
  · exact levRatio_le_one a b

theorem isAddressMatch_conf_le_one (addr1 : String) (plz1 : Option String)
    (addr2 : String) (plz2 : Option String) (thr : ℚ) :
    (isAddressMatch addr1 plz1 addr2 plz2 thr).2 ≤ 1 := by
  have hs := similarityScore_le_one (normalizeAddress (some addr1)) (normalizeAddress (some addr2))
  unfold isAddressMatch
  dsimp only
  split_ifs
  all_goals try exact hs
  all_goals try exact min_le_left _ _
  all_goals norm_num

theorem isNameMatch_true_ge (n1 n2 : String) :
    (isNameMatch n1 n2 0.85).1 = true → (0.85 : ℚ) ≤ (isNameMatch n1 n2 0.85).2 := by
  unfold isNameMatch
  dsimp only
  split_ifs
  all_goals intro h
  all_goals dsimp only at h ⊢
  all_goals try simp at h
  all_goals try assumption
  all_goals norm_num

theorem dupWeightedConf_name (la lb : Lead)
    (hns : ¬((truthyS la.telefon = true ∧ truthyS lb.telefon = true) ∧
      (isPhoneMatch la.telefon lb.telefon).1 = true ∧
      (0.95 : ℚ) ≤ (isPhoneMatch la.telefon lb.telefon).2))
    (h : (0.95 : ℚ) ≤ dupWeightedConf la lb 1 0.8 0.6) :
    (isNameMatch la.firmenname lb.firmenname 0.85).1 = true := by
  by_contra hnm
  have ham1 := isAddressMatch_conf_le_one (formatFull la.adresse) la.adresse.plz
    (formatFull lb.adresse) lb.adresse.plz 0.8
  have hpmlt : ((truthyS la.telefon = true ∧ truthyS lb.telefon = true) ∧
      (isPhoneMatch la.telefon lb.telefon).1 = true) →
      (isPhoneMatch la.telefon lb.telefon).2 < 0.95 :=
    fun hc => not_le.mp (fun hge => hns ⟨hc.1, hc.2, hge⟩)
  unfold dupWeightedConf at h
  dsimp only at h
  by_cases hp : truthyS la.telefon = true ∧ truthyS lb.telefon = true <;>
  by_cases hpm : (isPhoneMatch la.telefon lb.telefon).1 = true <;>
  by_cases ha : dupHaveAddr la lb <;>
  by_cases ham : (isAddressMatch (formatFull la.adresse) la.adresse.plz
      (formatFull lb.adresse) lb.adresse.plz 0.8).1 = true
  all_goals simp only [hp, hpm, ha, ham, hnm, and_true, true_and, and_false, false_and,
    if_true, if_false] at h
  all_goals norm_num at h
  all_goals rw [le_div_iff (by norm_num)] at h
  all_goals first
    | (have hlt := hpmlt ⟨hp, hpm⟩
       norm_num at hlt
       norm_num at ham1
       linarith [hlt, ham1])
    | (norm_num at ham1
       linarith [ham1])

theorem mem_insertByScoreDesc {x w : Lead} : {l : List Lead} →
    w ∈ insertByScoreDesc x l → w = x ∨ w ∈ l
  | [], h => by simpa [insertByScoreDesc] using h
  | y :: ys, h => by
    by_cases hc : qualitaetScore x < qualitaetScore y
    · simp only [insertByScoreDesc, if_pos hc, List.mem_cons] at h
      rcases h with rfl | h'
      · exact Or.inr (List.mem_cons_self _ _)
      · rcases mem_insertByScoreDesc h' with rfl | hw
        · exact Or.inl rfl
        · exact Or.inr (List.mem_cons_of_mem _ hw)
    · simp only [insertByScoreDesc, if_neg hc, List.mem_cons] at h
      rcases h with rfl | h'
      · exact Or.inl rfl
      · exact Or.inr (by simpa [List.mem_cons] using h')

theorem insertByScoreDesc_sorted (x : Lead) (l : List Lead)
    (h : List.Pairwise (fun a b => qualitaetScore b ≤ qualitaetScore a) l) :
    List.Pairwise (fun a b => qualitaetScore b ≤ qualitaetScore a) (insertByScoreDesc x l) := by
  induction l with
  | nil => simp [insertByScoreDesc]
  | cons y ys ih =>
    rw [List.pairwise_cons] at h
    obtain ⟨hy, hys⟩ := h
    by_cases hc : qualitaetScore x < qualitaetScore y
    · simp only [insertByScoreDesc, if_pos hc]
      rw [List.pairwise_cons]
      refine ⟨fun w hw => ?_, ih hys⟩
      rcases mem_insertByScoreDesc hw with rfl | hw'
      · exact le_of_lt hc
      · exact hy w hw'
    · simp only [insertByScoreDesc, if_neg hc]
      rw [List.pairwise_cons]
      refine ⟨fun w hw => ?_, by rw [List.pairwise_cons]; exact ⟨hy, hys⟩⟩
      rcases List.mem_cons.mp hw with rfl | hw'
      · exact not_lt.mp hc
      · exact le_trans (hy w hw') (not_lt.mp hc)

theorem filter_insertByScoreDesc (q : Nat) (x : Lead) (l : List Lead) :
    (insertByScoreDesc x l).filter (fun a => qualitaetScore a == q) =
    (if qualitaetScore x == q then x :: l.filter (fun a => qualitaetScore a == q)
     else l.filter (fun a => qualitaetScore a == q)) := by
  induction l with
  | nil =>
    by_cases hxq : (qualitaetScore x == q) = true <;>
      simp [insertByScoreDesc, List.filter_cons, hxq]
  | cons y ys ih =>
    by_cases hc : qualitaetScore x < qualitaetScore y
    · have hstep : insertByScoreDesc x (y :: ys) = y :: insertByScoreDesc x ys := by
        simp [insertByScoreDesc, hc]
      rw [hstep]
      simp only [List.filter_cons, ih]
      by_cases hyq : (qualitaetScore y == q) = true
      · have hy' : qualitaetScore y = q := by simpa using hyq
        have hxq : (qualitaetScore x == q) = false := by
          simp only [beq_eq_false_iff_ne, ne_eq]
          omega
        simp [hyq, hxq]
      · simp [hyq]
    · have hstep : insertByScoreDesc x (y :: ys) = x :: y :: ys := by
        simp [insertByScoreDesc, hc]
      rw [hstep]
      by_cases hxq : (qualitaetScore x == q) = true <;> simp [List.filter_cons, hxq]

theorem sortLeadsQuality_sorted (leads : List Lead) :
    List.Pairwise (fun a b => qualitaetScore b ≤ qualitaetScore a) (sortLeadsQuality leads) := by
  induction leads with
  | nil => simp [sortLeadsQuality]
  | cons x xs ih => exact insertByScoreDesc_sorted x _ ih

theorem sortLeadsQuality_stable (q : Nat) (leads : List Lead) :
    (sortLeadsQuality leads).filter (fun a => qualitaetScore a == q) =
    leads.filter (fun a => qualitaetScore a == q) := by
  induction leads with
  | nil => rfl
  | cons x xs ih =>
    show (insertByScoreDesc x (sortLeadsQuality xs)).filter _ = _
    rw [filter_insertByScoreDesc]
    by_cases hxq : (qualitaetScore x == q) = true <;> simp [hxq, List.filter, ih]

theorem isPrefixOf_append (l r : List Char) : l.isPrefixOf (l ++ r) = true := by
  induction l with
  | nil => simp [List.isPrefixOf]
  | cons c cs ih => simp [List.isPrefixOf, ih]

theorem strStartsWith_append (pre t : String) : strStartsWith pre (pre ++ t) = true := by
  unfold strStartsWith
  rw [String.data_append]
  exact isPrefixOf_append _ _

/-- The domain the scanner's URL stage parses out of a raw URL. -/
def scanDomain (url : String) : String := (parseUrlParts (normalizeScanUrl url)).1

/-- The `domain + path` string the old-hosting patterns are matched against. -/
def scanFullUrl (url : String) : List Char :=
  ((parseUrlParts (normalizeScanUrl url)).1).data ++ ((parseUrlParts (normalizeScanUrl url)).2.1).data

theorem oldFold_defAlt (fullUrl : List Char) :
    (pats : List ((List Char → Bool) × String × HeuristicResult)) →
    (acc : List String × Option HeuristicResult) →
    (acc.2 = some .definitivAlt ∨ ∃ p ∈ pats, p.1 fullUrl = true ∧ p.2.2 = .definitivAlt) →
    (pats.foldl (oldPatternStep fullUrl) acc).2 = some .definitivAlt
  | [], acc, h => by
    rcases h with hacc | ⟨p, hp, _, _⟩
    · simpa using hacc
    · simp at hp
  | p :: ps, acc, h => by
    rw [List.foldl_cons]
    apply oldFold_defAlt fullUrl ps
    rcases h with hacc | ⟨pp, hpp, hm, hd⟩
    · left
      unfold oldPatternStep
      rw [hacc]
      split
      · dsimp only
        split <;> rfl
      · exact hacc
    · rcases List.mem_cons.mp hpp with rfl | hmem
      · left
        unfold oldPatternStep
        rw [if_pos hm]
        dsimp only
        rcases hs : acc.2 with _ | w
        · simpa using hd
        · simp [hd]
      · right
        exact ⟨pp, hmem, hm, hd⟩

theorem checkOldPatterns_defAlt (l : List Char)
    (h : ∃ p ∈ oldHostingPatterns, p.1 l = true ∧ p.2.2 = .definitivAlt) :
    checkOldPatterns l =
      some (.definitivAlt, (oldHostingPatterns.foldl (oldPatternStep l) ([], none)).1) := by
  have hf := oldFold_defAlt l oldHostingPatterns ([], none) (Or.inr h)
  unfold checkOldPatterns
  dsimp only
  rw [hf]

theorem urlAnalyze_defAlt (url : String)
    (h : ∃ p ∈ oldHostingPatterns, p.1 (scanFullUrl url) = true ∧ p.2.2 = .definitivAlt) :
    urlAnalyze url =
      ⟨.definitivAlt, 0.9,
       (if (parseUrlParts (normalizeScanUrl url)).2.2 then [] else ["kein_https"]) ++
         (oldHostingPatterns.foldl (oldPatternStep (scanFullUrl url)) ([], none)).1,
       scanDomain url, (parseUrlParts (normalizeScanUrl url)).2.2⟩ := by
  have hck := checkOldPatterns_defAlt (scanFullUrl url) h
  unfold urlAnalyze
  dsimp only
  rw [show checkOldPatterns ((parseUrlParts (normalizeScanUrl url)).1.data ++
    (parseUrlParts (normalizeScanUrl url)).2.1.data) =
    some (.definitivAlt, (oldHostingPatterns.foldl (oldPatternStep (scanFullUrl url)) ([], none)).1)
    from hck]
  rfl

theorem urlAnalyze_baukasten (url : String)
    (hnone : checkOldPatterns (scanFullUrl url) = none)
    (hbk : checkBaukasten (scanDomain url).data ≠ []) :
    urlAnalyze url =
      ⟨.baukasten, 0.95,
       (if (parseUrlParts (normalizeScanUrl url)).2.2 then [] else ["kein_https"]) ++
         checkBaukasten (scanDomain url).data,
       scanDomain url, (parseUrlParts (normalizeScanUrl url)).2.2⟩ := by
  unfold urlAnalyze
  dsimp only
  rw [show checkOldPatterns ((parseUrlParts (normalizeScanUrl url)).1.data ++
    (parseUrlParts (normalizeScanUrl url)).2.1.data) = none from hnone]
  dsimp only
  rw [if_pos (show checkBaukasten (parseUrlParts (normalizeScanUrl url)).1.data ≠ [] from hbk)]
  rfl

/-! ## Claim-side rubric definitions (C4) -/

/-- The quality rubric exactly as claim C4 words it: "+10 if a rating is
present" (no condition on the rating count). -/
def qualitaetScoreClaimRubric (l : Lead) : Nat :=
  min 100 ((if truthyS l.telefon then 20 else 0) + (if truthyS l.email then 25 else 0) +
    (if truthyS l.websiteUrl then 15 else 0) +
    (if truthyS l.adresse.strasse ∧ truthyS l.adresse.plz then 15
     else if truthyS l.adresse.strasse ∨ truthyS l.adresse.plz then 7 else 0) +
    (if l.bewertung.isSome then 10 else 0) +
    (if (l.oeffnungszeiten.getD []) ≠ [] ∧ l.oeffnungszeiten.isSome then 5 else 0) +
    (if truthyS l.beschreibung then 10 else 0))

/-- The rubric as amended: +10 requires a rating AND a non-zero rating count,
as the code's `if self.bewertung is not None and self.bewertung_anzahl` has it;
all other clauses as the claim words them. -/
def qualitaetScoreRubricAmended (l : Lead) : Nat :=
  min 100 ((if truthyS l.telefon then 20 else 0) + (if truthyS l.email then 25 else 0) +
    (if truthyS l.websiteUrl then 15 else 0) +
    (if truthyS l.adresse.strasse ∧ truthyS l.adresse.plz then 15
     else if truthyS l.adresse.strasse ∨ truthyS l.adresse.plz then 7 else 0) +
    (if l.bewertung.isSome ∧ (l.bewertungAnzahl.getD 0 ≠ 0 ∧ l.bewertungAnzahl.isSome) then 10 else 0) +
    (if (l.oeffnungszeiten.getD []) ≠ [] ∧ l.oeffnungszeiten.isSome then 5 else 0) +
    (if truthyS l.beschreibung then 10 else 0))

/-- Lead with phone, email, website and full address only (claim C4's 75-point
scenario). -/
def c4FullLead : Lead :=
  { firmenname := "Friseur Voll"
    branche := "Friseur"
    adresse := { strasse := some "Hauptstrasse", hausnummer := some "1",
                 plz := some "10115", stadt := "Berlin" }
    telefon := some "030 123456"
    email := some "info@voll.de"
    websiteUrl := some "https://voll.de"
    gelbeSeitenUrl := "https://gs.de/voll" }

/-- The same lead after gaining opening hours (the 80-point scenario). -/
def c4FullLeadHours : Lead :=
  { c4FullLead with oeffnungszeiten := some [("Montag", "09:00-18:00")] }

/-- Lead whose only extra datum is a rating with no rating count. -/
def c4RatingLead : Lead :=
  { firmenname := "Nur Bewertung"
    branche := "Friseur"
    adresse := { stadt := "Berlin" }
    bewertung := some 4.5
    gelbeSeitenUrl := "https://gs.de/r" }

/-- C4 counterexample: a lead with a rating present but no rating count
scores 0 under the code, while the claim's rubric gives it 10. -/
theorem c4_rating_clause_counterexample :
    qualitaetScore c4RatingLead = 0 ∧ qualitaetScoreClaimRubric c4RatingLead = 10 ∧
    qualitaetScore c4RatingLead ≠ qualitaetScoreClaimRubric c4RatingLead := by
  refine ⟨rfl, rfl, by decide⟩

set_option maxHeartbeats 2000000 in
/-- C4 (amended): the quality score is the clamped-to-100 rubric sum with
+10 for a rating only when a rating AND a non-zero rating count are present;
in particular the full-contact lead scores 75 and gains 5 with hours. -/
theorem c4_quality_rubric :
    (∀ l : Lead, qualitaetScore l = qualitaetScoreRubricAmended l) ∧
    qualitaetScore c4FullLead = 75 ∧ qualitaetScore c4FullLeadHours = 80 := by
  refine ⟨fun l => ?_, by rfl, by rfl⟩
  unfold qualitaetScore qualitaetScoreRubricAmended
  split_ifs <;> rfl

/-- C6 counterexample: normalize_phone is not idempotent; the normalized form
of "0491234567890" starts with 49 and has more than 10 digits, so a second
pass strips it again. -/
theorem c6_normalizePhone_not_idempotent :
    normalizePhone (some "0491234567890") = "491234567890" ∧
    normalizePhone (some (normalizePhone (some "0491234567890"))) = "1234567890" ∧
    normalizePhone (some (normalizePhone (some "0491234567890"))) ≠
      normalizePhone (some "0491234567890") := by
  decide

theorem normalizePhone_all_digits (p : Option String) :
    ∀ c ∈ (normalizePhone p).data, c.isDigit = true := by
  match p with
  | none => intro c hc; simp [normalizePhone] at hc
  | some s =>
    intro c hc
    unfold normalizePhone at hc
    by_cases hs : s = ""
    · simp [hs] at hc
    · simp only [hs, if_false] at hc
      split_ifs at hc <;>
      · have hmem := hc
        first
          | exact List.of_mem_filter (List.mem_of_mem_drop (List.mem_of_mem_drop hmem))
          | exact List.of_mem_filter (List.mem_of_mem_drop hmem)
          | exact List.of_mem_filter hmem

/-- C6 (amended): normalize_phone is idempotent at every input whose
normalized form neither starts with the digit 0 nor starts with 49 at more
than 10 digits; on those forms a second pass strips further. -/
theorem c6_normalizePhone_conditional_idempotent (p : Option String)
    (h0 : (normalizePhone p).data.take 1 ≠ ['0'])
    (h49 : ¬((normalizePhone p).data.take 2 = ['4', '9'] ∧ 10 < (normalizePhone p).data.length)) :
    normalizePhone (some (normalizePhone p)) = normalizePhone p := by
  set d := normalizePhone p with hd
  by_cases hde : d = ""
  · rw [hde]; rfl
  · have hdig : d.data.filter Char.isDigit = d.data :=
      List.filter_eq_self.mpr (fun c hc => normalizePhone_all_digits p c hc)
    have h0049 : ¬(d.data.take 4 = ['0', '0', '4', '9'] ∧ 12 < d.data.length) := by
      rintro ⟨h4, _⟩
      apply h0
      have ht : d.data.take 1 = (d.data.take 4).take 1 := by
        rw [List.take_take]
        norm_num
      rw [ht, h4]
      rfl
    unfold normalizePhone
    simp only [hde, if_false]
    rw [hdig]
    rw [if_neg h49]
    rw [if_neg h0049]
    rw [if_neg h0]

/-- C6 witness input: a German number whose normalized form keeps no 49/0
residue. -/
theorem c6_idempotent_witness :
    (normalizePhone (some "+49 30 12345678")).data.take 1 ≠ ['0'] ∧
    ¬((normalizePhone (some "+49 30 12345678")).data.take 2 = ['4', '9'] ∧
      10 < (normalizePhone (some "+49 30 12345678")).data.length) ∧
    normalizePhone (some (normalizePhone (some "+49 30 12345678"))) =
      normalizePhone (some "+49 30 12345678") :=
  ⟨by decide, by decide,
   c6_normalizePhone_conditional_idempotent (some "+49 30 12345678") (by decide) (by decide)⟩

/-- C7: should_retry is true exactly when the attempt counter is below
max_retries and the status is in the retryable set; with the default
configuration (max_retries 3, set 429/500/502/503/504) attempt 2 still
retries a 429 and attempt 3 does not. -/
theorem c7_should_retry_iff :
    (∀ (cfg : RateLimitConfig) (s a : Nat),
      shouldRetry cfg s a = (decide (a < cfg.maxRetries) && cfg.retryStatusCodes.contains s)) ∧
    ({} : RateLimitConfig).maxRetries = 3 ∧
    ({} : RateLimitConfig).retryStatusCodes = [429, 500, 502, 503, 504] ∧
    shouldRetry {} 429 2 = true ∧ shouldRetry {} 429 3 = false ∧
    shouldRetry {} 404 0 = false := by
  refine ⟨fun cfg s a => ?_, rfl, rfl, by decide, by decide, by decide⟩
  unfold shouldRetry
  by_cases h : cfg.maxRetries ≤ a
  · simp [h, Nat.not_lt.mpr h]
  · simp [h, Nat.lt_of_not_le h]

/-! ## C9: ranking order -/

/-- Lexicographic comparison of names, character by character (how Python
compares the strings the claim's tie-break would sort by). -/
def charListLtB : List Char → List Char → Bool
  | [], [] => false
  | [], _ :: _ => true
  | _ :: _, [] => false
  | a :: as, b :: bs => if a < b then true else if b < a then false else charListLtB as bs

/-- The ordering claim C9 asserts for the emitted list: quality score strictly
descending, or equal scores with names in nondecreasing order. -/
def c9ClaimOrder (a b : Lead) : Prop :=
  qualitaetScore b < qualitaetScore a ∨
  (qualitaetScore a = qualitaetScore b ∧
   charListLtB b.firmenname.data a.firmenname.data = false)

def c9LeadB : Lead :=
  { firmenname := "b"
    branche := "Friseur"
    adresse := { stadt := "Berlin" }
    gelbeSeitenUrl := "https://gs.de/b" }

def c9LeadA : Lead :=
  { firmenname := "a"
    branche := "Friseur"
    adresse := { stadt := "Berlin" }
    gelbeSeitenUrl := "https://gs.de/a" }

/-- C9 counterexample: two equal-score leads with names out of order stay in
input order after stage 4 (Python's sort is stable and keys only on the
score), so ties are NOT ordered by name. -/
theorem c9_no_name_tiebreak_counterexample :
    stage4FilterLeads {} [c9LeadB, c9LeadA] = [c9LeadB, c9LeadA] ∧
    qualitaetScore c9LeadB = qualitaetScore c9LeadA ∧
    ¬ List.Pairwise c9ClaimOrder (stage4FilterLeads {} [c9LeadB, c9LeadA]) := by
  refine ⟨by rfl, by rfl, fun h => ?_⟩
  rw [show stage4FilterLeads {} [c9LeadB, c9LeadA] = [c9LeadB, c9LeadA] from by rfl] at h
  rcases List.pairwise_cons.mp h with ⟨hrel, _⟩
  rcases hrel c9LeadA (by simp) with hlt | ⟨_, hnlt⟩
  · exact absurd hlt (by decide)
  · exact absurd hnlt (by decide)

/-- C9 (amended): stage 4 emits the filtered leads sorted by quality score in
descending order; leads with equal score keep their relative input order
(stable sort) rather than being ordered by name. -/
theorem c9_sorted_by_quality_stable :
    ∀ (cfg : FilterConfig) (leads : List Lead),
      List.Pairwise (fun a b => qualitaetScore b ≤ qualitaetScore a) (stage4FilterLeads cfg leads) ∧
      ∀ q : Nat, (stage4FilterLeads cfg leads).filter (fun l => qualitaetScore l == q) =
        (filterLeads cfg leads).filter (fun l => qualitaetScore l == q) :=
  fun cfg leads => ⟨sortLeadsQuality_sorted _, fun q => sortLeadsQuality_stable q _⟩

/-! ## C2: aggregator on (X, empty) and (X, X) -/

theorem isDuplicate_self_phone (pw nw aw th : ℚ) :
    isDuplicate sampleLeadA sampleLeadA pw nw aw th = ⟨true, 1, ["phone_exact"], []⟩ := by
  unfold isDuplicate
  dsimp only
  rw [if_pos (show (truthyS sampleLeadA.telefon = true ∧ truthyS sampleLeadA.telefon = true) ∧
    (isPhoneMatch sampleLeadA.telefon sampleLeadA.telefon).1 = true ∧
    (0.95 : ℚ) ≤ (isPhoneMatch sampleLeadA.telefon sampleLeadA.telefon).2 from
    ⟨⟨by decide, by decide⟩,
     by rw [show isPhoneMatch sampleLeadA.telefon sampleLeadA.telefon = (true, 1) from rfl],
     by rw [show isPhoneMatch sampleLeadA.telefon sampleLeadA.telefon = (true, 1) from rfl]
        norm_num⟩)]
  rw [show isPhoneMatch sampleLeadA.telefon sampleLeadA.telefon = (true, 1) from rfl]

theorem bestMatchIndex_self (cfg : AggregatorConfig) :
    bestMatchIndex cfg sampleLeadA [sampleLeadA] = some 0 := by
  unfold bestMatchIndex
  dsimp only
  rw [List.foldl_cons, List.foldl_nil]
  dsimp only
  rw [isDuplicate_self_phone]
  rw [if_pos ⟨rfl, show ((none, 0, 0) : Option Nat × ℚ × Nat).2.1 <
    (⟨true, 1, ["phone_exact"], []⟩ : MatchResult).confidence by norm_num⟩]

/-- C2: aggregating (X, []) returns X unchanged, but aggregating a non-empty
X with itself crashes: the self-match short-circuits on the phone, and
merge_leads then reads the nonexistent `quellen` field, raising
AttributeError instead of returning X with both source tags. -/
theorem c2_aggregate_empty_and_self :
    (∀ X : List Lead, aggregate {} X [] =
      .ok (X, { gelbeSeitenInput := X.length, googleMapsInput := 0, totalInput := X.length,
                duplicatesFound := 0, mergedLeads := 0, uniqueLeads := 0,
                outputCount := X.length })) ∧
    aggregate {} [sampleLeadA] [sampleLeadA] = .error .attributeError := by
  refine ⟨fun X => rfl, ?_⟩
  have hstep : ∀ (cfg : AggregatorConfig) (stats : AggregationStats),
      aggregateStep cfg ([sampleLeadA], stats) sampleLeadA = .error .attributeError := by
    intro cfg stats
    unfold aggregateStep
    rw [bestMatchIndex_self]
    rfl
  unfold aggregate
  dsimp only
  rw [List.foldlM_cons, hstep]
  rfl

/-! ## C10: cross-category duplicate check calls a method that does not exist -/

/-- C10: whenever at least one lead is already accumulated and a further
category yields at least one lead, the cross-category duplicate check raises
AttributeError (the class defines no `_is_duplicate`), the error is swallowed
(non-debug run), the category's leads are discarded from the accumulator, and
the category is still marked processed. -/
theorem c10_crossdedup_attribute_error (scrape : String → List Lead) (idx : Nat)
    (st : MultiState) (fs : CheckpointFS) (b : String)
    (hne : st.allLeads ≠ []) (hnp : st.processed.contains b = false)
    (hbl : scrape b ≠ []) :
    leadAggregatorMethods.contains "_is_duplicate" = false ∧
    collectNewLeads (scrape b) st.allLeads = .error .attributeError ∧
    ∃ fs', processBranche false scrape idx st fs b =
      .ok ⟨⟨st.allLeads, st.processed ++ [b]⟩, fs', some .attributeError⟩ := by
  obtain ⟨l, ls, hl⟩ : ∃ l ls, scrape b = l :: ls := by
    cases hsb : scrape b with
    | nil => exact absurd hsb hbl
    | cons l ls => exact ⟨l, ls, rfl⟩
  obtain ⟨e, es, he⟩ : ∃ e es, st.allLeads = e :: es := by
    cases hsa : st.allLeads with
    | nil => exact absurd hsa hne
    | cons e es => exact ⟨e, es, rfl⟩
  have hcd : checkDupAgainst l st.allLeads = .error .attributeError := by
    rw [he]
    rfl
  have hcoll : collectNewLeads (scrape b) st.allLeads = .error .attributeError := by
    rw [hl]
    unfold collectNewLeads
    rw [hcd]
    rfl
  refine ⟨by decide, hcoll, ⟨if idx % 10 = 0 then saveCheckpoint ⟨st.allLeads, st.processed ++ [b]⟩ else fs, ?_⟩⟩
  unfold processBranche
  rw [if_neg (by simpa using hnp)]
  dsimp only
  rw [if_pos hbl, hcoll]
  rfl

/-! ## C8: checkpoint protocol of the multi-category run -/

theorem processBranche_never_errors (scrape : String → List Lead) (idx : Nat)
    (st : MultiState) (fs : CheckpointFS) (b : String) :
    ∃ o, processBranche false scrape idx st fs b = .ok o := by
  unfold processBranche
  split
  · exact ⟨_, rfl⟩
  · dsimp only
    cases hatt : (if scrape b ≠ [] then
        (collectNewLeads (scrape b) st.allLeads).map (fun nl => st.allLeads ++ nl)
      else .ok st.allLeads) with
    | error e => exact ⟨_, rfl⟩
    | ok newAll => exact ⟨_, rfl⟩

theorem runMultiAux_never_errors (scrape : String → List Lead) :
    (branchen : List String) → (idx : Nat) → (st : MultiState) → (fs : CheckpointFS) →
    ∃ o, runMultiAux false scrape idx st fs branchen = .ok o
  | [], _, st, fs => ⟨(st, fs), rfl⟩
  | b :: bs, idx, st, fs => by
    obtain ⟨o, ho⟩ := processBranche_never_errors scrape idx st fs b
    obtain ⟨o2, ho2⟩ := runMultiAux_never_errors scrape bs (idx + 1) o.state o.fs
    exact ⟨o2, by unfold runMultiAux; rw [ho]; simpa using ho2⟩

/-- C8: the checkpoint protocol of the multi-category run.  (1) With both
checkpoint files present and a non-empty processed list - every checkpoint the
code itself writes has one - the saved leads are restored and the processed
categories loaded.  (2) A category in the processed set is skipped: the state
and files are untouched, whatever the scraper would return.  (3) At every
10th enumerate index, a processed category's step persists the accumulated
leads and the processed set into the two files.  (4) A completed run deletes
both checkpoint files. -/
theorem c8_checkpoint_protocol :
    (∀ (L0 : List Lead) (P0 : List String) (fs : CheckpointFS),
      fs.leadsCkpt = some L0 → fs.branchenCkpt = some P0 → P0 ≠ [] →
      loadCheckpoint fs = ⟨L0, P0⟩) ∧
    (∀ (debug : Bool) (scrape : String → List Lead) (idx : Nat) (st : MultiState)
       (fs : CheckpointFS) (b : String), st.processed.contains b = true →
      processBranche debug scrape idx st fs b = .ok ⟨st, fs, none⟩) ∧
    (∀ (scrape : String → List Lead) (idx : Nat) (st : MultiState) (fs : CheckpointFS)
       (b : String), idx % 10 = 0 → st.processed.contains b = false →
      ∃ st' sw, processBranche false scrape idx st fs b =
        .ok ⟨st', ⟨some st'.allLeads, some st'.processed⟩, sw⟩) ∧
    (∀ (scrape : String → List Lead) (branchen : List String) (fs0 : CheckpointFS),
      ∃ leads st, runMultiBranche false scrape branchen fs0 =
        .ok (leads, st, ⟨none, none⟩)) := by
  refine ⟨?_, ?_, ?_, ?_⟩
  · intro L0 P0 fs hL hP hne
    unfold loadCheckpoint
    rw [hL, hP]
    simp [hne]
  · intro debug scrape idx st fs b hb
    unfold processBranche
    rw [if_pos (by simpa using hb)]
  · intro scrape idx st fs b hidx hb
    unfold processBranche
    rw [if_neg (by simpa using hb)]
    dsimp only
    cases hatt : (if scrape b ≠ [] then
        (collectNewLeads (scrape b) st.allLeads).map (fun nl => st.allLeads ++ nl)
      else .ok st.allLeads) with
    | error e =>
      refine ⟨⟨st.allLeads, st.processed ++ [b]⟩, some e, ?_⟩
      dsimp only
      rw [if_pos hidx]
      rfl
    | ok newAll =>
      refine ⟨⟨newAll, st.processed ++ [b]⟩, none, ?_⟩
      dsimp only
      rw [if_pos hidx]
      rfl
  · intro scrape branchen fs0
    obtain ⟨o, ho⟩ := runMultiAux_never_errors scrape branchen 1 (loadCheckpoint fs0) fs0
    refine ⟨o.1.allLeads, o.1, ?_⟩
    unfold runMultiBranche
    dsimp only
    rw [ho]
    rfl

/-- C8 witness: the protocol at concrete inputs - a resume state with one
saved lead and one processed category, a skipped category, a 10th-index save,
and a completed two-category run. -/
theorem c8_checkpoint_protocol_witness :
    loadCheckpoint ⟨some [sampleLeadA], some ["Friseur"]⟩ = ⟨[sampleLeadA], ["Friseur"]⟩ ∧
    processBranche false (fun _ => [sampleLeadB]) 2 ⟨[sampleLeadA], ["Friseur"]⟩
      ⟨some [sampleLeadA], some ["Friseur"]⟩ "Friseur" =
      .ok ⟨⟨[sampleLeadA], ["Friseur"]⟩, ⟨some [sampleLeadA], some ["Friseur"]⟩, none⟩ ∧
    (∃ st' sw, processBranche false (fun _ => []) 10 ⟨[sampleLeadA], ["Friseur"]⟩
      ⟨none, none⟩ "Baecker" = .ok ⟨st', ⟨some st'.allLeads, some st'.processed⟩, sw⟩) ∧
    (∃ leads st, runMultiBranche false (fun _ => [sampleLeadA]) ["Friseur", "Baecker"]
      ⟨none, none⟩ = .ok (leads, st, ⟨none, none⟩)) :=
  ⟨c8_checkpoint_protocol.1 [sampleLeadA] ["Friseur"] ⟨some [sampleLeadA], some ["Friseur"]⟩
      rfl rfl (by decide),
   c8_checkpoint_protocol.2.1 false (fun _ => [sampleLeadB]) 2 ⟨[sampleLeadA], ["Friseur"]⟩
      ⟨some [sampleLeadA], some ["Friseur"]⟩ "Friseur" (by decide),
   c8_checkpoint_protocol.2.2.1 (fun _ => []) 10 ⟨[sampleLeadA], ["Friseur"]⟩
      ⟨none, none⟩ "Baecker" (by decide) (by decide),
   c8_checkpoint_protocol.2.2.2 (fun _ => [sampleLeadA]) ["Friseur", "Baecker"] ⟨none, none⟩⟩

/-- C10 witness: a concrete second-category step with one accumulated lead
and one scraped lead. -/
theorem c10_crossdedup_attribute_error_witness :
    leadAggregatorMethods.contains "_is_duplicate" = false ∧
    collectNewLeads ((fun _ => [sampleLeadB]) "Baecker") [sampleLeadA] = .error .attributeError ∧
    ∃ fs', processBranche false (fun _ => [sampleLeadB]) 2 ⟨[sampleLeadA], ["Friseur"]⟩
      ⟨none, none⟩ "Baecker" =
      .ok ⟨⟨[sampleLeadA], ["Friseur"] ++ ["Baecker"]⟩, fs', some .attributeError⟩ := by
  have h := c10_crossdedup_attribute_error (fun _ => [sampleLeadB]) 2
    ⟨[sampleLeadA], ["Friseur"]⟩ ⟨none, none⟩ "Baecker" (by decide) (by decide) (by decide)
  exact h

/-! ## C3: what a confidence of at least 0.95 implies about the two leads -/

theorem lcsLen_rep (c a b : Char) (h : a ≠ b) :
    ∀ n, lcsLen (List.replicate n c ++ [a]) (List.replicate n c ++ [b]) = n
  | 0 => by simp [lcsLen, h]
  | n + 1 => by
    rw [List.replicate_succ]
    simp only [List.cons_append, lcsLen, if_pos rfl]
    rw [lcsLen_rep c a b h n]
    exact if_pos trivial

theorem c3_phone_pair_value :
    isPhoneMatch c3LeadA.telefon c3LeadB.telefon = (true, 19/20) := by
  have hss : similarityScore (normalizePhone c3LeadA.telefon) (normalizePhone c3LeadB.telefon)
      = 19/20 := by
    rw [show normalizePhone c3LeadA.telefon = "11111111111111111112" from by decide,
        show normalizePhone c3LeadB.telefon = "11111111111111111113" from by decide]
    unfold similarityScore
    rw [if_neg (by decide)]
    unfold levRatio
    rw [if_neg (by decide)]
    rw [show ("11111111111111111112" : String).data = List.replicate 19 '1' ++ ['2'] from
          by decide,
        show ("11111111111111111113" : String).data = List.replicate 19 '1' ++ ['3'] from
          by decide]
    rw [lcsLen_rep '1' '2' '3' (by decide) 19]
    rw [show ("11111111111111111112" : String).length = 20 from by decide,
        show ("11111111111111111113" : String).length = 20 from by decide]
    norm_num
  unfold isPhoneMatch
  rw [if_neg (by decide)]
  dsimp only
  rw [if_neg (by decide), if_neg (by decide), if_neg (by decide)]
  rw [hss]
  rw [if_pos (by norm_num)]

/-- C3 counterexample: the phone numbers "11111111111111111112" and
"11111111111111111113" normalize to different strings, yet their Levenshtein
ratio is exactly 0.95, so the phone branch short-circuits with confidence
0.95: a positive match decision of confidence at least 0.95 between two leads
that share no normalized phone number, whose names do not match, and whose
postal codes differ - against the claimed dichotomy. -/
theorem c3_counterexample_near_phone :
    (0.95 : ℚ) ≤ (isDuplicate c3LeadA c3LeadB 1 0.8 0.6 0.85).confidence ∧
    (isDuplicate c3LeadA c3LeadB 1 0.8 0.6 0.85).isMatch = true ∧
    normalizePhone c3LeadA.telefon ≠ normalizePhone c3LeadB.telefon ∧
    (isNameMatch c3LeadA.firmenname c3LeadB.firmenname 0.85).1 = false ∧
    c3LeadA.adresse.plz ≠ c3LeadB.adresse.plz := by
  have hdup : isDuplicate c3LeadA c3LeadB 1 0.8 0.6 0.85 =
      ⟨true, 19/20, ["phone_exact"], []⟩ := by
    unfold isDuplicate
    dsimp only
    rw [if_pos (show (truthyS c3LeadA.telefon = true ∧ truthyS c3LeadB.telefon = true) ∧
        (isPhoneMatch c3LeadA.telefon c3LeadB.telefon).1 = true ∧
        (0.95 : ℚ) ≤ (isPhoneMatch c3LeadA.telefon c3LeadB.telefon).2 from
      ⟨⟨by decide, by decide⟩, by rw [c3_phone_pair_value],
        by rw [c3_phone_pair_value]; norm_num⟩)]
    rw [c3_phone_pair_value]
  have hnm : (isNameMatch c3LeadA.firmenname c3LeadB.firmenname 0.85).1 = false := by
    unfold isNameMatch
    rw [if_pos (by decide)]
  refine ⟨by rw [hdup]; norm_num, by rw [hdup], by decide, hnm, by decide⟩

/-- C3: what does hold at confidence 0.95: either the phone comparison
itself reported a match of score at least 0.95 (equality of the normalized
numbers not required), or the name comparison reported a match, whose score
is then at least 0.85 (equality of the postal codes not required). -/
theorem c3_high_confidence_phone_or_name (la lb : Lead)
    (h : (0.95 : ℚ) ≤ (isDuplicate la lb 1 0.8 0.6 0.85).confidence) :
    ((truthyS la.telefon = true ∧ truthyS lb.telefon = true) ∧
      (isPhoneMatch la.telefon lb.telefon).1 = true ∧
      (0.95 : ℚ) ≤ (isPhoneMatch la.telefon lb.telefon).2) ∨
    ((isNameMatch la.firmenname lb.firmenname 0.85).1 = true ∧
      (0.85 : ℚ) ≤ (isNameMatch la.firmenname lb.firmenname 0.85).2) := by
  by_cases hsc : (truthyS la.telefon = true ∧ truthyS lb.telefon = true) ∧
      (isPhoneMatch la.telefon lb.telefon).1 = true ∧
      (0.95 : ℚ) ≤ (isPhoneMatch la.telefon lb.telefon).2
  · exact .inl hsc
  · right
    have hconf : (isDuplicate la lb 1 0.8 0.6 0.85).confidence =
        dupWeightedConf la lb 1 0.8 0.6 := by
      unfold isDuplicate
      dsimp only
      rw [if_neg hsc]
    rw [hconf] at h
    have hnm := dupWeightedConf_name la lb hsc h
    exact ⟨hnm, isNameMatch_true_ge _ _ hnm⟩

/-- C3 witness: the self-comparison of a lead with a phone number has
confidence 1, and the implication instantiates there. -/
theorem c3_high_confidence_phone_or_name_witness :
    (0.95 : ℚ) ≤ (isDuplicate sampleLeadA sampleLeadA 1 0.8 0.6 0.85).confidence ∧
    (((truthyS sampleLeadA.telefon = true ∧ truthyS sampleLeadA.telefon = true) ∧
      (isPhoneMatch sampleLeadA.telefon sampleLeadA.telefon).1 = true ∧
      (0.95 : ℚ) ≤ (isPhoneMatch sampleLeadA.telefon sampleLeadA.telefon).2) ∨
    ((isNameMatch sampleLeadA.firmenname sampleLeadA.firmenname 0.85).1 = true ∧
      (0.85 : ℚ) ≤ (isNameMatch sampleLeadA.firmenname sampleLeadA.firmenname 0.85).2)) := by
  have hh : (0.95 : ℚ) ≤ (isDuplicate sampleLeadA sampleLeadA 1 0.8 0.6 0.85).confidence := by
    rw [isDuplicate_self_phone]
    norm_num
  exact ⟨hh, c3_high_confidence_phone_or_name sampleLeadA sampleLeadA hh⟩

/-! ## C5: URL-stage short-circuit of the website scanner -/

theorem makeFinalDecision_methods (u : URLAnalysisResult) (hdr : HeaderAnalysisResult)
    (html : HTMLAnalysisResult) (sigs ms : List String) :
    (makeFinalDecision u hdr html sigs ms).checkMethods = ms := by
  unfold makeFinalDecision
  dsimp only
  split_ifs <;> rfl

/-- C5 counterexample: the host of "https://x.bplaced.jimdo.com" matches the
builder-platform pattern ".jimdo.com", yet the scan does not stop at the URL
stage: the ".bplaced." old-hosting pattern pre-empts the builder check with a
merely-probable verdict, so under Thorough depth the header and HTML probes
both run. -/
theorem c5_counterexample_builder_not_short_circuit :
    checkBaukasten (scanDomain "https://x.bplaced.jimdo.com").data ≠ [] ∧
    (websiteScan "https://x.bplaced.jimdo.com" .thorough ⟨.unklar, 0.5, []⟩
        ⟨.unklar, 0.5, []⟩).checkMethods = ["url_heuristic", "header_check", "html_scan"] := by
  refine ⟨by decide, ?_⟩
  have hws : websiteScan "https://x.bplaced.jimdo.com" .thorough ⟨.unklar, 0.5, []⟩
        ⟨.unklar, 0.5, []⟩ =
      makeFinalDecision (urlAnalyze "https://x.bplaced.jimdo.com") ⟨.unklar, 0.5, []⟩
        ⟨.unklar, 0.5, []⟩
        ((urlAnalyze "https://x.bplaced.jimdo.com").signals.map (fun s => "url:" ++ s) ++ [] ++ [])
        (["url_heuristic"] ++ ["header_check"] ++ ["html_scan"]) := by rfl
  rw [hws, makeFinalDecision_methods]
  rfl

/-- C5: the short-circuit as the code implements it: when the combined
domain-and-path string matches a DEFINITIV_ALT old-hosting pattern, or no
old-hosting pattern matches and the domain matches a builder-platform
pattern, then for every depth the scan returns website status `alt` from the
URL stage alone: the executed-stage list is exactly ["url_heuristic"] (no
header, no HTML probe) and every signal carries the "url:" prefix. -/
theorem c5_url_stage_short_circuit (url : String) (depth : WebsiteCheckDepth)
    (hdr : HeaderAnalysisResult) (html : HTMLAnalysisResult)
    (h : (∃ p ∈ oldHostingPatterns, p.1 (scanFullUrl url) = true ∧ p.2.2 = .definitivAlt) ∨
      (checkOldPatterns (scanFullUrl url) = none ∧ checkBaukasten (scanDomain url).data ≠ [])) :
    (websiteScan url depth hdr html).websiteStatus = .alt ∧
    (websiteScan url depth hdr html).checkMethods = ["url_heuristic"] ∧
    ∀ s ∈ (websiteScan url depth hdr html).signals, strStartsWith "url:" s = true := by
  rcases h with hold | ⟨hnone, hbk⟩
  · have hu := urlAnalyze_defAlt url hold
    unfold websiteScan
    dsimp only
    rw [hu]
    dsimp only
    rw [if_pos rfl]
    refine ⟨rfl, rfl, ?_⟩
    intro s hs
    obtain ⟨t, _, rfl⟩ := List.mem_map.mp hs
    exact strStartsWith_append "url:" t
  · have hu := urlAnalyze_baukasten url hnone hbk
    unfold websiteScan
    dsimp only
    rw [hu]
    dsimp only
    rw [if_neg (by decide), if_pos rfl]
    refine ⟨rfl, rfl, ?_⟩
    intro s hs
    obtain ⟨t, _, rfl⟩ := List.mem_map.mp hs
    exact strStartsWith_append "url:" t

/-- C5 witness: a geocities URL under Thorough depth, with probe stubs that
would scream modern if they were ever consulted. -/
theorem c5_url_stage_short_circuit_witness :
    (∃ p ∈ oldHostingPatterns,
        p.1 (scanFullUrl "https://www.geocities.com/shop") = true ∧ p.2.2 = .definitivAlt) ∧
    (websiteScan "https://www.geocities.com/shop" .thorough ⟨.wahrscheinlichModern, 0.9, []⟩
        ⟨.wahrscheinlichModern, 0.9, []⟩).websiteStatus = .alt ∧
    (websiteScan "https://www.geocities.com/shop" .thorough ⟨.wahrscheinlichModern, 0.9, []⟩
        ⟨.wahrscheinlichModern, 0.9, []⟩).checkMethods = ["url_heuristic"] ∧
    ∀ s ∈ (websiteScan "https://www.geocities.com/shop" .thorough ⟨.wahrscheinlichModern, 0.9, []⟩
        ⟨.wahrscheinlichModern, 0.9, []⟩).signals, strStartsWith "url:" s = true := by
  have hmem : ∃ p ∈ oldHostingPatterns,
      p.1 (scanFullUrl "https://www.geocities.com/shop") = true ∧ p.2.2 = .definitivAlt := by
    refine ⟨(hasSubstr ".geocities.".data, "geocities_hosting", .definitivAlt), ?_, by decide, rfl⟩
    unfold oldHostingPatterns
    exact List.mem_cons_self _ _
  exact ⟨hmem, c5_url_stage_short_circuit "https://www.geocities.com/shop" .thorough
    ⟨.wahrscheinlichModern, 0.9, []⟩ ⟨.wahrscheinlichModern, 0.9, []⟩ (Or.inl hmem)⟩

/-! ## C1: session-limit handling across scraper and orchestrator -/

/-- C1: with the default 180-minute cap, a detail visit at second 10900
trips the rate limiter.  The scraper stores the lead collected before the cap
into `_partial_leads` and re-raises; the orchestrator's handler then returns
normally and without an error entry - but with an EMPTY lead list: the
handler falls back to `[]` because its local `leads` is unbound when the
condition escapes stage 1a, and the scraper's `_partial_leads` is never read,
so the already-materialized lead is dropped from the result. -/
theorem c1_session_limit_handler :
    stealthAcquire {} 0 10900 = .error .sessionLimitReached ∧
    (scrapeLeadsDetails {} 0 10 [⟨0, sampleLeadA⟩, ⟨10900, sampleLeadB⟩] []).partialLeads
      = [sampleLeadA] ∧
    pipelineRunGS {} 0 10 [⟨0, sampleLeadA⟩, ⟨10900, sampleLeadB⟩] id id =
      ⟨⟨[], []⟩, [sampleLeadA]⟩ := by
  have ha0 : stealthAcquire {} 0 0 = .ok () := by
    unfold stealthAcquire
    rw [if_neg (show ¬((({} : StealthConfig).maxSessionDurationMinutes : ℚ) * 60 ≤ 0 - 0) from by
      show ¬(((180 : ℕ) : ℚ) * 60 ≤ 0 - 0)
      norm_num)]
  have ha1 : stealthAcquire {} 0 10900 = .error .sessionLimitReached := by
    unfold stealthAcquire
    rw [if_pos (show (({} : StealthConfig).maxSessionDurationMinutes : ℚ) * 60 ≤ 10900 - 0 from by
      show ((180 : ℕ) : ℚ) * 60 ≤ 10900 - 0
      norm_num)]
  have h1 : scrapeLeadsDetails {} 0 10 [⟨(10900 : ℚ), sampleLeadB⟩] [sampleLeadA] =
      ⟨.error .sessionLimitReached, [sampleLeadA]⟩ := by
    unfold scrapeLeadsDetails
    rw [if_neg (by decide)]
    dsimp only
    rw [ha1]
  have hs : scrapeLeadsDetails {} 0 10 [⟨0, sampleLeadA⟩, ⟨10900, sampleLeadB⟩] [] =
      ⟨.error .sessionLimitReached, [sampleLeadA]⟩ := by
    unfold scrapeLeadsDetails
    rw [if_neg (by decide)]
    dsimp only
    rw [ha0]
    dsimp only
    simp only [List.nil_append]
    exact h1
  refine ⟨ha1, by rw [hs], ?_⟩
  unfold pipelineRunGS
  dsimp only
  rw [hs]
